import Mathlib

/-!
Verification development for a Swedish double-entry bookkeeping engine.

The definitions below are a shallow embedding of the Python source:

* `app/services/accounting.py` — `AccountingService` (posting engine and
  balance engine),
* `app/services/closing.py` — `ClosingService` (period result, result
  disposition, year close, opening-balance carry),
* `app/services/accrual.py` and `app/models/accrual.py` — `AccrualService`,
* `app/services/template.py` and `app/models/template.py` — `TemplateService`,
* `app/services/sie_import.py` — `SIEImporter._import_transactions`,
* `app/models/transaction.py`, `app/models/fiscal_year.py`,
  `app/models/account.py` — the persisted entities.

Conventions of the embedding:

* Money (`Decimal` with scale 2 in the source, SQL `Numeric(15, 2)`) is an
  `Int` counted in öre (hundredths); all arithmetic is exact, as in the
  source.  `Decimal.quantize(Decimal("0.01"))` with the default
  `ROUND_HALF_EVEN` mode is modelled by `roundHalfEven`.
* Dates are `Nat` ordinals; the source only ever compares dates with `<=`.
* The SQLAlchemy session is modelled by an explicit `Store` value; `commit`
  is the return of the updated store, a raised exception is `Except.error`
  (nothing is committed on that path, matching the source where `db.commit()`
  is never reached once an exception is raised).
* Table rows carry their integer primary keys; `db.flush()` allocating an id
  is modelled by the `nextTransactionId` counter.
* `TransactionLine` rows live in their own table keyed by `transaction_id`;
  the embedding stores each transaction's lines inline, which preserves the
  join used by every query in the sources modelled here.
-/

namespace Bokforing

/-- Lexicographic comparison of character lists by code point, the order the
database uses for `ORDER BY accounts.number` on the string column. -/
def strLeB : List Char → List Char → Bool
  | [], _ => true
  | _ :: _, [] => false
  | a :: as, b :: bs =>
    if a.val < b.val then true
    else if b.val < a.val then false
    else strLeB as bs

/-- Round `num / den` (with `den > 0`) to the nearest integer, ties to even:
the effect of `Decimal.quantize(Decimal("0.01"), ROUND_HALF_EVEN)` (the
context default) once amounts are scaled to öre. -/
def roundHalfEven (num : Int) (den : Int) : Int :=
  let q := Int.fdiv num den
  let r := num - q * den
  if 2 * r < den then q
  else if 2 * r > den then q + 1
  else if q % 2 = 0 then q else q + 1

/-- Row of `accounts` (`app/models/account.py`): primary key, owning company,
BAS number string, and the signed opening balance (SIE convention: positive =
debit side). -/
structure Account where
  id : Nat
  companyId : Nat
  number : String
  openingBalance : Int
deriving DecidableEq

/-- Row of `fiscal_years` (`app/models/fiscal_year.py`). -/
structure FiscalYear where
  id : Nat
  companyId : Nat
  startDate : Nat
  endDate : Nat
  isClosed : Bool
deriving DecidableEq

/-- Row of `transaction_lines` (`app/models/transaction.py`), inlined into its
owning transaction. -/
structure TransactionLine where
  accountId : Nat
  debit : Int
  credit : Int
deriving DecidableEq

/-- Row of `transactions` (`app/models/transaction.py`): a verification.  The
table declares no unique constraint on
(company_id, fiscal_year_id, verification_number). -/
structure Transaction where
  id : Nat
  companyId : Nat
  fiscalYearId : Nat
  verificationNumber : Nat
  transactionDate : Nat
  description : String
  lines : List TransactionLine
deriving DecidableEq

/-- The persistent store (the SQLAlchemy session plus its tables, restricted
to the entities the modelled services read and write). -/
structure Store where
  accounts : List Account
  fiscalYears : List FiscalYear
  transactions : List Transaction
  nextTransactionId : Nat
deriving DecidableEq

/-- Ordering of accounts used by `get_accounts` (`ORDER BY Account.number`). -/
def accountNumberLe (a b : Account) : Prop :=
  strLeB a.number.data b.number.data = true

instance : DecidableRel accountNumberLe := fun a b => by
  unfold accountNumberLe; infer_instance

/-- `AccountingService.get_accounts`: all accounts of the company ordered by
account number. -/
def get_accounts (s : Store) (companyId : Nat) : List Account :=
  (s.accounts.filter (fun a => a.companyId == companyId)).insertionSort accountNumberLe

/-- `AccountingService.get_account_by_number`. -/
def get_account_by_number (s : Store) (companyId : Nat) (number : String) :
    Option Account :=
  s.accounts.find? (fun a => a.companyId == companyId && a.number == number)

/-- `AccountingService.get_next_verification_number`: `SELECT MAX(verification_number)`
restricted to the company and fiscal year, then `(max_ver or 0) + 1`. -/
def get_next_verification_number (s : Store) (companyId fiscalYearId : Nat) : Nat :=
  let maxVer :=
    ((s.transactions.filter
        (fun t => t.companyId == companyId && t.fiscalYearId == fiscalYearId)).map
      (fun t => t.verificationNumber)).foldr max 0
  maxVer + 1

/-- `AccountingService.create_transaction`: validates that total debit equals
total credit and that the total is nonzero, then inserts the verification and
its lines in one commit.  A `ValueError` is `Except.error`; on that path the
store is untouched. -/
def create_transaction (s : Store) (companyId fiscalYearId : Nat)
    (transactionDate : Nat) (description : String)
    (lines : List TransactionLine) : Except String (Store × Transaction) :=
  let totalDebit : Int := (lines.map (fun l => l.debit)).sum
  let totalCredit : Int := (lines.map (fun l => l.credit)).sum
  if totalDebit ≠ totalCredit then
    .error "Transaktionen balanserar inte"
  else if totalDebit = 0 then
    .error "Transaktionen har inga belopp"
  else
    let verNumber := get_next_verification_number s companyId fiscalYearId
    let transaction : Transaction :=
      { id := s.nextTransactionId
        companyId := companyId
        fiscalYearId := fiscalYearId
        verificationNumber := verNumber
        transactionDate := transactionDate
        description := description
        lines := lines }
    .ok ({ s with
            transactions := s.transactions ++ [transaction]
            nextTransactionId := s.nextTransactionId + 1 },
         transaction)

/-- `AccountingService.get_account_balance`: `opening_balance + Σ debit − Σ credit`
over the account's lines joined with their transactions, restricted to
`transaction_date <= end_date` when a cutoff is given; `0` when the account
id does not resolve. -/
def get_account_balance (s : Store) (accountId : Nat) (endDate : Option Nat) : Int :=
  match s.accounts.find? (fun a => a.id == accountId) with
  | none => 0
  | some account =>
    let inRange : Transaction → Bool := fun t =>
      match endDate with
      | none => true
      | some d => t.transactionDate ≤ d
    let ls :=
      ((s.transactions.filter inRange).map
        (fun t => t.lines.filter (fun l => l.accountId == accountId))).flatten
    let totalDebit := (ls.map (fun l => l.debit)).sum
    let totalCredit := (ls.map (fun l => l.credit)).sum
    account.openingBalance + totalDebit - totalCredit

/-- One row of the trial balance returned by `get_trial_balance`. -/
structure TrialBalanceEntry where
  accountNumber : String
  balance : Int
  debit : Int
  credit : Int
deriving DecidableEq

/-- `AccountingService.get_trial_balance`: one entry per account with nonzero
balance; a positive balance goes to the debit column, a negative one to the
credit column as its absolute value. -/
def get_trial_balance (s : Store) (companyId : Nat) (endDate : Option Nat) :
    List TrialBalanceEntry :=
  ((get_accounts s companyId).map (fun account =>
    let balance := get_account_balance s account.id endDate
    if balance ≠ 0 then
      if balance ≥ 0 then
        [{ accountNumber := account.number, balance := balance,
           debit := balance, credit := 0 }]
      else
        [{ accountNumber := account.number, balance := balance,
           debit := 0, credit := -balance }]
    else [])).flatten

/-- `ClosingService._check_trial_balance`: passes when
`abs(total_debit - total_credit) < Decimal("0.01")`, that is, strictly below
one öre. -/
def check_trial_balance (s : Store) (companyId : Nat) (asOfDate : Nat) : Bool :=
  let balances := get_trial_balance s companyId (some asOfDate)
  let totalDebit : Int := (balances.map (fun b => b.debit)).sum
  let totalCredit : Int := (balances.map (fun b => b.credit)).sum
  decide (|totalDebit - totalCredit| < 1)

/-- `ClosingService.validate_closing` reduced to its `is_valid` flag: the only
entry ever appended to `errors` is the trial-balance failure; the activity and
key-account checks only append to `warnings`. -/
def validate_closing (s : Store) (companyId : Nat) (periodEnd : Nat) : Bool :=
  check_trial_balance s companyId periodEnd

/-- `ClosingService.calculate_period_result`: revenue is the summed balance of
accounts whose number starts with `3`, expenses of those starting `4`–`8`,
both at the `end_date` cutoff; the result is `revenue - expenses`.  The
`start_date` parameter is accepted and, as in the source, never used. -/
def calculate_period_result (s : Store) (companyId : Nat)
    (startDate endDate : Nat) : Int :=
  let step : Int × Int → Account → Int × Int := fun acc account =>
    match account.number.data.head? with
    | none => acc
    | some firstDigit =>
      let balance := get_account_balance s account.id (some endDate)
      if firstDigit = '3' then (acc.1 + balance, acc.2)
      else if firstDigit ∈ ['4', '5', '6', '7', '8'] then (acc.1, acc.2 + balance)
      else acc
  let sums := (get_accounts s companyId).foldl step (0, 0)
  sums.1 - sums.2

/-- `ClosingService._create_result_disposition`: no posting for a zero result
or when account `2099` or `2098` is missing; otherwise a two-line verification
over those accounts, direction depending on the sign of the result, created
through `create_transaction`. -/
def create_result_disposition (s : Store) (companyId fiscalYearId : Nat)
    (result : Int) (dispositionDate : Nat) :
    Except String (Store × Option Transaction) :=
  if result = 0 then .ok (s, none)
  else
    let accounts := get_accounts s companyId
    match accounts.find? (fun a => a.number == "2099"),
          accounts.find? (fun a => a.number == "2098") with
    | some currentYear, some previousYear =>
      let amount := |result|
      let lines :=
        if result > 0 then
          [{ accountId := currentYear.id, debit := amount, credit := 0 },
           { accountId := previousYear.id, debit := 0, credit := amount }]
        else
          [{ accountId := previousYear.id, debit := amount, credit := 0 },
           { accountId := currentYear.id, debit := 0, credit := amount }]
      (create_transaction s companyId fiscalYearId dispositionDate
          "Resultatdisposition" lines).map
        (fun r => (r.1, some r.2))
    | _, _ => .ok (s, none)

/-- Summary returned by `close_year` (the fields of its result dict that carry
state: the computed result, the `is_valid` flag, whether a disposition
verification was created, and the final closed flag). -/
structure CloseYearResult where
  result : Int
  isValid : Bool
  dispositionCreated : Bool
  closed : Bool
deriving DecidableEq

/-- `ClosingService.close_year`: looks up the fiscal year (raising when it is
missing), validates, computes the result, creates the disposition when
requested and valid, and finally sets `is_closed` when valid.  The function
never reads the fiscal year's current `is_closed` flag. -/
def close_year (s : Store) (companyId fiscalYearId : Nat)
    (createResultDisposition : Bool) :
    Except String (Store × CloseYearResult) :=
  match s.fiscalYears.find? (fun fy => fy.id == fiscalYearId) with
  | none => .error "Räkenskapsåret finns inte"
  | some fiscalYear =>
    let validation := validate_closing s companyId fiscalYear.endDate
    let result :=
      calculate_period_result s companyId fiscalYear.startDate fiscalYear.endDate
    let afterDispo : Except String (Store × Option Transaction) :=
      if createResultDisposition && validation then
        create_result_disposition s companyId fiscalYearId result
          fiscalYear.endDate
      else .ok (s, none)
    afterDispo.map (fun r =>
      let s1 := r.1
      let s2 :=
        if validation then
          { s1 with
              fiscalYears := s1.fiscalYears.map (fun fy =>
                if fy.id == fiscalYearId then { fy with isClosed := true } else fy) }
        else s1
      (s2, { result := result
             isValid := validation
             dispositionCreated := r.2.isSome
             closed := validation }))

/-- Guard of the loop body in `ClosingService.create_opening_balances`: the
account belongs to the company (the loop runs over `get_accounts(company_id)`),
its number is nonempty, and the first character is `1` or `2`. -/
def carriesOpeningBalance (companyId : Nat) (account : Account) : Bool :=
  account.companyId == companyId &&
    (match account.number.data.head? with
     | some c => c == '1' || c == '2'
     | none => false)

/-- `ClosingService.create_opening_balances`: for every balance-sheet account
of the company, compute the closing balance at the source year's end date and,
when it is nonzero, overwrite `Account.opening_balance` with it; returns the
number of accounts written.  Each account's balance depends only on its own
row, so the sequential per-row mutation of the source loop equals this map
over the original store.  The target fiscal year id is accepted and, as in the
source, never used: `opening_balance` is a single column on `accounts`. -/
def create_opening_balances (s : Store)
    (companyId sourceFiscalYearId targetFiscalYearId : Nat) :
    Except String (Store × Nat) :=
  match s.fiscalYears.find? (fun fy => fy.id == sourceFiscalYearId) with
  | none => .error "Källräkenskapsår finns inte"
  | some sourceFy =>
    let newAccounts := s.accounts.map (fun account =>
      if carriesOpeningBalance companyId account then
        let closingBalance :=
          get_account_balance s account.id (some sourceFy.endDate)
        if closingBalance ≠ 0 then
          { account with openingBalance := closingBalance }
        else account
      else account)
    let count :=
      ((s.accounts.filter (carriesOpeningBalance companyId)).filter
        (fun account =>
          get_account_balance s account.id (some sourceFy.endDate) != 0)).length
    .ok ({ s with accounts := newAccounts }, count)

/-- `AccrualType` (`app/models/accrual.py`). -/
inductive AccrualType where
  | prepaidExpense
  | accruedExpense
  | prepaidIncome
  | accruedIncome
deriving DecidableEq

/-- Row of `accrual_entries` (`app/models/accrual.py`). -/
structure AccrualEntry where
  periodNumber : Nat
  periodDate : Nat
  amount : Int
  isBooked : Bool
deriving DecidableEq

/-- Row of `accruals` (`app/models/accrual.py`), with its entries inlined. -/
structure Accrual where
  companyId : Nat
  fiscalYearId : Nat
  name : String
  accrualType : AccrualType
  totalAmount : Int
  periods : Nat
  amountPerPeriod : Int
  sourceAccountId : Nat
  targetAccountId : Nat
  entries : List AccrualEntry
deriving DecidableEq

/-- The per-period amount computed in `AccrualService.create_accrual`:
`(Decimal(str(total_amount)) / periods).quantize(Decimal("0.01"))`, with the
context default `ROUND_HALF_EVEN`. -/
def amount_per_period (totalAmount : Int) (periods : Nat) : Int :=
  roundHalfEven totalAmount (periods : Int)

/-- `Accrual.remaining_amount`: total amount minus the sum of booked entry
amounts. -/
def remaining_amount (accrual : Accrual) : Int :=
  accrual.totalAmount -
    ((accrual.entries.filter (fun e => e.isBooked)).map (fun e => e.amount)).sum

/-- `AccrualService._create_accrual_transaction`: the two posting lines, by
accrual type (expense kinds debit the target and credit the source, income
kinds debit the source and credit the target), passed to
`create_transaction`. -/
def create_accrual_transaction (s : Store) (accrual : Accrual)
    (entryAmount : Int) (periodDate : Nat) :
    Except String (Store × Transaction) :=
  let amount := entryAmount
  let lines :=
    match accrual.accrualType with
    | .prepaidExpense =>
      [{ accountId := accrual.targetAccountId, debit := amount, credit := 0 },
       { accountId := accrual.sourceAccountId, debit := 0, credit := amount }]
    | .accruedExpense =>
      [{ accountId := accrual.targetAccountId, debit := amount, credit := 0 },
       { accountId := accrual.sourceAccountId, debit := 0, credit := amount }]
    | .prepaidIncome =>
      [{ accountId := accrual.sourceAccountId, debit := amount, credit := 0 },
       { accountId := accrual.targetAccountId, debit := 0, credit := amount }]
    | .accruedIncome =>
      [{ accountId := accrual.sourceAccountId, debit := amount, credit := 0 },
       { accountId := accrual.targetAccountId, debit := 0, credit := amount }]
  create_transaction s accrual.companyId accrual.fiscalYearId periodDate
    ("Periodisering: " ++ accrual.name) lines

/-- `AccrualService.generate_entry`: no-op when an entry with this period
number already exists; otherwise the amount is `remaining_amount` for the last
period and `amount_per_period` before it, the verification is created, and the
entry is stored booked.  A `ValueError` raised inside `create_transaction`
propagates before any commit, leaving the store unchanged. -/
def generate_entry (s : Store) (accrual : Accrual) (periodDate : Nat)
    (periodNumber : Nat) :
    Except String (Store × Accrual × Option AccrualEntry) :=
  if (accrual.entries.find? (fun e => e.periodNumber == periodNumber)).isSome then
    .ok (s, accrual, none)
  else
    let amount :=
      if periodNumber == accrual.periods then remaining_amount accrual
      else accrual.amountPerPeriod
    (create_accrual_transaction s accrual amount periodDate).map (fun r =>
      let entry : AccrualEntry :=
        { periodNumber := periodNumber, periodDate := periodDate,
          amount := amount, isBooked := true }
      (r.1, { accrual with entries := accrual.entries ++ [entry] }, some entry))

/-- The generation loop of `AccrualService._generate_pending_entries` run far
enough to cover every period: `generate_entry` on each period number `1..n`
in order (`periodDates` abstracts the `relativedelta` date stepping, which the
amounts never read). -/
def generate_entries (s : Store) (accrual : Accrual) (periodDates : Nat → Nat)
    (n : Nat) : Except String (Store × Accrual) :=
  (List.range' 1 n).foldlM (fun acc k =>
    (generate_entry acc.1 acc.2 (periodDates k) k).map (fun r => (r.1, r.2.1)))
    (s, accrual)

/-- Row of `template_line_items` (`app/models/template.py`).  The percentage
column `Numeric(5, 2)` is carried in hundredths of a percent. -/
structure TemplateLineItem where
  accountId : Nat
  isDebit : Bool
  amountFixed : Option Int
  amountPercentage : Option Int
  isRemainder : Bool
  sortOrder : Nat
deriving DecidableEq

/-- Row of `transaction_templates` (`app/models/template.py`), lines inlined. -/
structure TransactionTemplate where
  companyId : Nat
  name : String
  lines : List TemplateLineItem
deriving DecidableEq

/-- `TemplateLineItem.calculate_amount`: the fixed amount when present, else
`round2(total * percentage / 100)` when a percentage is present, else `0`.
With the percentage in hundredths of a percent the quantized division is
`roundHalfEven (total * p) 10000`. -/
def calculate_amount (line : TemplateLineItem) (totalAmount : Int) : Int :=
  match line.amountFixed with
  | some m => m
  | none =>
    match line.amountPercentage with
    | some p => roundHalfEven (totalAmount * p) 10000
    | none => 0

/-- Ordering of template lines used by `apply_template`
(`sorted(template.lines, key=lambda x: x.sort_order)`). -/
def sortOrderLe (a b : TemplateLineItem) : Prop :=
  a.sortOrder ≤ b.sortOrder

instance : DecidableRel sortOrderLe := fun a b => by
  unfold sortOrderLe; infer_instance

/-- Accumulator state of the line loop in `apply_template`: built lines,
running debit total, running credit total, and the remainder line seen last. -/
structure ApplyState where
  lines : List TransactionLine
  runningTotalDebit : Int
  runningTotalCredit : Int
  remainderLine : Option TemplateLineItem
deriving DecidableEq

/-- Body of the line loop in `apply_template`: a remainder line is put aside
(a later one replaces an earlier one), any other line contributes
`calculate_amount` on its side. -/
def applyStep (totalAmount : Int) (acc : ApplyState) (line : TemplateLineItem) :
    ApplyState :=
  if line.isRemainder then
    { acc with remainderLine := some line }
  else
    let amount := calculate_amount line totalAmount
    if line.isDebit then
      { acc with
          lines := acc.lines ++
            [{ accountId := line.accountId, debit := amount, credit := 0 }]
          runningTotalDebit := acc.runningTotalDebit + amount }
    else
      { acc with
          lines := acc.lines ++
            [{ accountId := line.accountId, debit := 0, credit := amount }]
          runningTotalCredit := acc.runningTotalCredit + amount }

/-- `TemplateService.apply_template`: expand the sorted template lines, append
the remainder line (its amount is `abs(diff)` when the gap lies on its side,
otherwise `total_amount` minus the running total of its own side), and pass
the line set to `create_transaction`. -/
def apply_template (s : Store) (template : TransactionTemplate)
    (fiscalYearId : Nat) (transactionDate : Nat) (totalAmount : Int) :
    Except String (Store × Transaction) :=
  let sortedLines := template.lines.insertionSort sortOrderLe
  let st := sortedLines.foldl (applyStep totalAmount)
    { lines := [], runningTotalDebit := 0, runningTotalCredit := 0,
      remainderLine := none }
  let finalLines :=
    match st.remainderLine with
    | some remainderLine =>
      let diff := st.runningTotalDebit - st.runningTotalCredit
      if remainderLine.isDebit then
        let amount := if diff < 0 then |diff| else 0
        st.lines ++
          [{ accountId := remainderLine.accountId,
             debit := if amount > 0 then amount
                      else totalAmount - st.runningTotalDebit,
             credit := 0 }]
      else
        let amount := if diff > 0 then |diff| else 0
        st.lines ++
          [{ accountId := remainderLine.accountId,
             debit := 0,
             credit := if amount > 0 then amount
                       else totalAmount - st.runningTotalCredit }]
    | none => st.lines
  create_transaction s template.companyId fiscalYearId transactionDate
    ("Transaktion från mall: " ++ template.name) finalLines

/-- One `#TRANS` line of a parsed SIE verification
(`sie_import.SIETransaction.lines` entries). -/
structure SIELine where
  accountNumber : String
  debit : Int
  credit : Int
deriving DecidableEq

/-- A parsed SIE verification (`sie_import.SIETransaction`). -/
structure SIETransaction where
  verificationNumber : Nat
  date : Nat
  description : String
  lines : List SIELine
deriving DecidableEq

/-- The lines of a parsed SIE verification that resolve to an account of the
company: each `#TRANS` line whose account number is found becomes a stored
line with the parsed debit and credit, the others are dropped. -/
def mapped_lines (s : Store) (companyId : Nat) (txData : SIETransaction) :
    List TransactionLine :=
  txData.lines.filterMap (fun lineData =>
    (s.accounts.find? (fun a =>
        a.companyId == companyId && a.number == lineData.accountNumber)).map
      (fun account =>
        ({ accountId := account.id, debit := lineData.debit,
           credit := lineData.credit } : TransactionLine)))

/-- Loop body of `SIEImporter._import_transactions` for one parsed
verification: skipped outright when it has no lines; otherwise a transaction
row is flushed (consuming an id), every line whose account number resolves
within the company is attached with the parsed debit and credit, and the
transaction is kept iff at least one line was attached.  The verification
number is taken verbatim from the file and no balance check is made. -/
def import_one_transaction (s : Store) (companyId fiscalYearId : Nat)
    (txData : SIETransaction) : Store × Nat :=
  if txData.lines.isEmpty then (s, 0)
  else
    let transactionId := s.nextTransactionId
    let mappedLines := mapped_lines s companyId txData
    if mappedLines.length > 0 then
      ({ s with
          transactions := s.transactions ++
            [{ id := transactionId
               companyId := companyId
               fiscalYearId := fiscalYearId
               verificationNumber := txData.verificationNumber
               transactionDate := txData.date
               description := txData.description
               lines := mappedLines }]
          nextTransactionId := transactionId + 1 }, 1)
    else
      ({ s with nextTransactionId := transactionId + 1 }, 0)

/-- `SIEImporter._import_transactions`: fold of `import_one_transaction` over
the parsed verifications, counting the ones kept.  The import statistics'
`errors` list is never touched here (in `import_file` it only ever receives
the company-lookup failure). -/
def import_transactions (s : Store) (companyId fiscalYearId : Nat)
    (transactions : List SIETransaction) : Store × Nat :=
  transactions.foldl (fun acc txData =>
    let r := import_one_transaction acc.1 companyId fiscalYearId txData
    (r.1, acc.2 + r.2)) (s, 0)

/-- Specification-level sum of the debit sides of a line list. -/
def sumDebits : List TransactionLine → Int
  | [] => 0
  | l :: ls => l.debit + sumDebits ls

/-- Specification-level sum of the credit sides of a line list. -/
def sumCredits : List TransactionLine → Int
  | [] => 0
  | l :: ls => l.credit + sumCredits ls

/-- The verification numbers present in one (company, fiscal year) slice of
the store, in storage order. -/
def verification_numbers (s : Store) (companyId fiscalYearId : Nat) : List Nat :=
  (s.transactions.filter
    (fun t => t.companyId == companyId && t.fiscalYearId == fiscalYearId)).map
    (fun t => t.verificationNumber)

/-- No two stored verifications share their
(company, fiscal year, verification number) triple. -/
def triplesUnique (s : Store) : Prop :=
  s.transactions.Pairwise (fun t u =>
    ¬(t.companyId = u.companyId ∧ t.fiscalYearId = u.fiscalYearId ∧
      t.verificationNumber = u.verificationNumber))

/-- Specification-level debit movement of an account: per transaction, the
debits of the account's lines when the transaction passes the cutoff. -/
def debit_movement (s : Store) (accountId : Nat) (cutoff : Option Nat) : Int :=
  (s.transactions.map (fun t =>
    match cutoff with
    | none =>
      (t.lines.map (fun l => if l.accountId = accountId then l.debit else 0)).sum
    | some d =>
      if t.transactionDate ≤ d then
        (t.lines.map (fun l => if l.accountId = accountId then l.debit else 0)).sum
      else 0)).sum

/-- Specification-level credit movement of an account, mirroring
`debit_movement`. -/
def credit_movement (s : Store) (accountId : Nat) (cutoff : Option Nat) : Int :=
  (s.transactions.map (fun t =>
    match cutoff with
    | none =>
      (t.lines.map (fun l => if l.accountId = accountId then l.credit else 0)).sum
    | some d =>
      if t.transactionDate ≤ d then
        (t.lines.map (fun l => if l.accountId = accountId then l.credit else 0)).sum
      else 0)).sum

/-- One requested posting: a date, a description and the line set handed to
the posting engine. -/
structure CreateRequest where
  transactionDate : Nat
  description : String
  lines : List TransactionLine
deriving DecidableEq

/-- A sequence of posting-engine calls against one (company, fiscal year):
each failed call leaves the store unchanged (the raised `ValueError` commits
nothing), each successful one installs its verification. -/
def run_creates (s : Store) (companyId fiscalYearId : Nat) :
    List CreateRequest → Store
  | [] => s
  | r :: rs =>
    match create_transaction s companyId fiscalYearId r.transactionDate
        r.description r.lines with
    | .error _ => run_creates s companyId fiscalYearId rs
    | .ok (s1, _) => run_creates s1 companyId fiscalYearId rs

/-- Debit total of a template's fixed and percentage lines at a given total
amount. -/
def template_debit_total (lines : List TemplateLineItem) (totalAmount : Int) : Int :=
  ((lines.filter (fun l => !l.isRemainder && l.isDebit)).map
    (fun l => calculate_amount l totalAmount)).sum

/-- Credit total of a template's fixed and percentage lines at a given total
amount. -/
def template_credit_total (lines : List TemplateLineItem) (totalAmount : Int) : Int :=
  ((lines.filter (fun l => !l.isRemainder && !l.isDebit)).map
    (fun l => calculate_amount l totalAmount)).sum

/-- Structural solvability of a template at a total amount, following the
specification: at least two lines, at most one remainder, and a nonnegative
amount exists for the remainder side (or none is needed) under which the
expanded line set balances with positive totals. -/
def structurally_solvable (template : TransactionTemplate) (totalAmount : Int) :
    Prop :=
  2 ≤ template.lines.length ∧
  (template.lines.filter (fun l => l.isRemainder)).length ≤ 1 ∧
  (let debitTotal := template_debit_total template.lines totalAmount
   let creditTotal := template_credit_total template.lines totalAmount
   match template.lines.find? (fun l => l.isRemainder) with
   | some remainderLine =>
     ∃ r : Int, 0 ≤ r ∧
       (if remainderLine.isDebit then
          debitTotal + r = creditTotal ∧ 0 < creditTotal
        else
          creditTotal + r = debitTotal ∧ 0 < debitTotal)
   | none => debitTotal = creditTotal ∧ 0 < debitTotal)

theorem sumDebits_eq_map_sum (lines : List TransactionLine) :
    sumDebits lines = (lines.map (fun l => l.debit)).sum := by
  induction lines with
  | nil => rfl
  | cons l ls ih => simp [sumDebits, ih]

theorem sumCredits_eq_map_sum (lines : List TransactionLine) :
    sumCredits lines = (lines.map (fun l => l.credit)).sum := by
  induction lines with
  | nil => rfl
  | cons l ls ih => simp [sumCredits, ih]

/-- C1: create_transaction raises (persisting no transaction and no lines)
exactly when the debit and credit sums differ or are both zero; otherwise it
commits, atomically, one verification carrying exactly the given lines. -/
theorem c1_balance_gate (s : Store) (companyId fiscalYearId : Nat)
    (transactionDate : Nat) (description : String)
    (lines : List TransactionLine) :
    (sumDebits lines ≠ sumCredits lines ∨ sumDebits lines = 0 →
      ∀ out, create_transaction s companyId fiscalYearId transactionDate
        description lines ≠ .ok out) ∧
    (sumDebits lines = sumCredits lines → sumDebits lines ≠ 0 →
      ∃ t : Transaction,
        create_transaction s companyId fiscalYearId transactionDate
            description lines =
          .ok ({ s with
                  transactions := s.transactions ++ [t]
                  nextTransactionId := s.nextTransactionId + 1 }, t) ∧
        t.lines = lines) := by
  rw [sumDebits_eq_map_sum, sumCredits_eq_map_sum]
  unfold create_transaction
  constructor
  · intro h out
    rcases h with h | h
    · simp [h]
    · by_cases hne : (lines.map (fun l => l.debit)).sum =
          (lines.map (fun l => l.credit)).sum
      · have hc : (lines.map (fun l => l.credit)).sum = 0 := hne ▸ h
        simp [hne, h, hc]
      · simp [hne]
  · intro heq hne
    refine ⟨{ id := s.nextTransactionId, companyId := companyId,
              fiscalYearId := fiscalYearId,
              verificationNumber :=
                get_next_verification_number s companyId fiscalYearId,
              transactionDate := transactionDate, description := description,
              lines := lines }, ?_, rfl⟩
    have hc : ¬(lines.map (fun l => l.credit)).sum = 0 := heq ▸ hne
    simp [heq, hne, hc]

theorem c1_balance_gate_witness :
    (sumDebits [⟨1, 100, 0⟩, ⟨2, 0, 100⟩] = sumCredits [⟨1, 100, 0⟩, ⟨2, 0, 100⟩] ∧
     sumDebits [⟨1, 100, 0⟩, ⟨2, 0, 100⟩] ≠ 0) ∧
    (∃ t : Transaction,
      create_transaction ⟨[], [], [], 0⟩ 1 1 5 "Kontantförsäljning"
          [⟨1, 100, 0⟩, ⟨2, 0, 100⟩] =
        .ok ({ (⟨[], [], [], 0⟩ : Store) with
                transactions := ([] : List Transaction) ++ [t]
                nextTransactionId := 0 + 1 }, t) ∧
      t.lines = [⟨1, 100, 0⟩, ⟨2, 0, 100⟩]) :=
  ⟨⟨by decide, by decide⟩,
   (c1_balance_gate ⟨[], [], [], 0⟩ 1 1 5 "Kontantförsäljning"
      [⟨1, 100, 0⟩, ⟨2, 0, 100⟩]).2 (by decide) (by decide)⟩

/-- C2 counterexample: in a store whose only fiscal year (id 1, range 1–100)
is closed, a balanced posting dated 50 — inside the closed year — succeeds and
enlarges the store instead of raising ClosedYearError. -/
theorem c2_closed_year_not_checked :
    ((⟨[⟨1, 1, "1930", 0⟩, ⟨2, 1, "3010", 0⟩],
       [⟨1, 1, 1, 100, true⟩], [], 0⟩ : Store).fiscalYears.map
        (fun fy => fy.isClosed)) = [true] ∧
    ∃ out,
      create_transaction
        ⟨[⟨1, 1, "1930", 0⟩, ⟨2, 1, "3010", 0⟩], [⟨1, 1, 1, 100, true⟩], [], 0⟩
        1 1 50 "Försäljning" [⟨1, 100, 0⟩, ⟨2, 0, 100⟩] = .ok out ∧
      out.1.transactions.length = 1 := by
  refine ⟨rfl, ⟨_, rfl, rfl⟩⟩

/-- C2 (amended): create_transaction never consults the fiscal-year table:
its outcome is the same for every value of `fiscalYears`, so no date-range or
closed-year validation happens in the posting engine (the source performs
that check only in the UI layer). -/
theorem c2_create_transaction_ignores_fiscal_years (s : Store)
    (fys : List FiscalYear) (companyId fiscalYearId : Nat)
    (transactionDate : Nat) (description : String)
    (lines : List TransactionLine) :
    create_transaction { s with fiscalYears := fys } companyId fiscalYearId
        transactionDate description lines =
      (create_transaction s companyId fiscalYearId transactionDate description
          lines).map
        (fun r => ({ r.1 with fiscalYears := fys }, r.2)) := by
  unfold create_transaction get_next_verification_number
  by_cases h1 : (lines.map (fun l => l.debit)).sum =
      (lines.map (fun l => l.credit)).sum
  · by_cases h2 : (lines.map (fun l => l.debit)).sum = (0 : Int)
    · have hc : (lines.map (fun l => l.credit)).sum = (0 : Int) := h1 ▸ h2
      simp [h1, h2, hc, Except.map]
    · have hc : ¬(lines.map (fun l => l.credit)).sum = (0 : Int) := h1 ▸ h2
      simp [h1, h2, hc, Except.map]
  · simp [h1, Except.map]

theorem sum_map_filter_eq {α : Type} (f : α → Int) (q : α → Bool) (l : List α) :
    ((l.filter q).map f).sum = (l.map (fun x => if q x then f x else 0)).sum := by
  induction l with
  | nil => rfl
  | cons x xs ih =>
    by_cases hx : q x
    · simp [List.filter_cons, hx, ih]
    · simp [List.filter_cons, hx, ih]

theorem sum_flatten_filter_eq {α β : Type} (f : β → Int) (p : α → Bool)
    (g : α → List β) (l : List α) :
    ((((l.filter p).map g).flatten).map f).sum =
      (l.map (fun x => if p x then ((g x).map f).sum else 0)).sum := by
  induction l with
  | nil => rfl
  | cons x xs ih =>
    by_cases hx : p x
    · rw [List.filter_cons, if_pos hx, List.map_cons, List.flatten_cons,
        List.map_append, List.sum_append, ih, List.map_cons, List.sum_cons,
        if_pos hx]
    · rw [List.filter_cons, if_neg hx, ih, List.map_cons, List.sum_cons,
        if_neg hx, zero_add]

/-- C5: for every resolvable account, the computed balance is the opening
balance plus debit movements minus credit movements over lines dated on or
before the cutoff, and over all lines when the cutoff is omitted.  The
formula involves neither the account number nor the account class: there is
no per-class sign branching. -/
theorem c5_balance_formula (s : Store) (accountId : Nat) (a : Account)
    (h : s.accounts.find? (fun x => x.id == accountId) = some a) :
    (∀ d : Nat, get_account_balance s accountId (some d) =
        a.openingBalance + debit_movement s accountId (some d)
          - credit_movement s accountId (some d)) ∧
    (get_account_balance s accountId none =
        a.openingBalance + debit_movement s accountId none
          - credit_movement s accountId none) := by
  constructor
  · intro d
    unfold get_account_balance debit_movement credit_movement
    rw [h]
    dsimp only
    rw [sum_flatten_filter_eq, sum_flatten_filter_eq]
    simp only [sum_map_filter_eq, decide_eq_true_eq, beq_iff_eq]
  · unfold get_account_balance debit_movement credit_movement
    rw [h]
    dsimp only
    rw [sum_flatten_filter_eq, sum_flatten_filter_eq]
    simp only [sum_map_filter_eq, decide_eq_true_eq, beq_iff_eq,
      eq_self_iff_true, if_true]

theorem c5_balance_formula_witness :
    ((⟨[⟨7, 1, "1930", 500⟩],
       [],
       [⟨0, 1, 1, 1, 10, "Insättning", [⟨7, 10000, 0⟩]⟩,
        ⟨1, 1, 1, 2, 30, "Uttag", [⟨7, 0, 4000⟩]⟩],
       2⟩ : Store).accounts.find? (fun x => x.id == 7) =
        some ⟨7, 1, "1930", 500⟩) ∧
    get_account_balance
        ⟨[⟨7, 1, "1930", 500⟩], [],
         [⟨0, 1, 1, 1, 10, "Insättning", [⟨7, 10000, 0⟩]⟩,
          ⟨1, 1, 1, 2, 30, "Uttag", [⟨7, 0, 4000⟩]⟩], 2⟩ 7 (some 20) =
      500 + debit_movement
          ⟨[⟨7, 1, "1930", 500⟩], [],
           [⟨0, 1, 1, 1, 10, "Insättning", [⟨7, 10000, 0⟩]⟩,
            ⟨1, 1, 1, 2, 30, "Uttag", [⟨7, 0, 4000⟩]⟩], 2⟩ 7 (some 20)
        - credit_movement
          ⟨[⟨7, 1, "1930", 500⟩], [],
           [⟨0, 1, 1, 1, 10, "Insättning", [⟨7, 10000, 0⟩]⟩,
            ⟨1, 1, 1, 2, 30, "Uttag", [⟨7, 0, 4000⟩]⟩], 2⟩ 7 (some 20) :=
  ⟨by decide,
   (c5_balance_formula
      ⟨[⟨7, 1, "1930", 500⟩], [],
       [⟨0, 1, 1, 1, 10, "Insättning", [⟨7, 10000, 0⟩]⟩,
        ⟨1, 1, 1, 2, 30, "Uttag", [⟨7, 0, 4000⟩]⟩], 2⟩ 7 ⟨7, 1, "1930", 500⟩
      (by decide)).1 20⟩

/-- C8 counterexample: the importer persists an unbalanced verification.  In
a store holding account `1930`, a parsed verification whose single mappable
line debits 100.00 kr with no credit side (Σ debit = 10000 öre ≠ 0 = Σ
credit) is imported and counted as imported — not skipped, not counted as an
error — contradicting the claim that unbalanced verifications are skipped. -/
theorem c8_unbalanced_import_not_skipped :
    ((import_transactions ⟨[⟨1, 1, "1930", 0⟩], [], [], 0⟩ 1 1
        [⟨1, 10, "Obalanserad", [⟨"1930", 10000, 0⟩]⟩]).1.transactions.map
      (fun t => (t.verificationNumber, sumDebits t.lines, sumCredits t.lines)))
      = [(1, 10000, 0)] ∧
    (import_transactions ⟨[⟨1, 1, "1930", 0⟩], [], [], 0⟩ 1 1
        [⟨1, 10, "Obalanserad", [⟨"1930", 10000, 0⟩]⟩]).2 = 1 := by
  exact ⟨by decide, by decide⟩

/-- C8 (amended): during SIE import a verification is persisted — with its
verification number verbatim and exactly its mappable lines — precisely when
at least one of its lines resolves to an account of the company; a
verification with no lines or no mappable lines is skipped without being
persisted, but it is only left out of the imported count, never recorded in
the import statistics' error list, and balance is never checked. -/
theorem c8_import_skip_rule (s : Store) (companyId fiscalYearId : Nat)
    (txData : SIETransaction) :
    (txData.lines ≠ [] → mapped_lines s companyId txData ≠ [] →
      import_one_transaction s companyId fiscalYearId txData =
        ({ s with
            transactions := s.transactions ++
              [{ id := s.nextTransactionId
                 companyId := companyId
                 fiscalYearId := fiscalYearId
                 verificationNumber := txData.verificationNumber
                 transactionDate := txData.date
                 description := txData.description
                 lines := mapped_lines s companyId txData }]
            nextTransactionId := s.nextTransactionId + 1 }, 1)) ∧
    (txData.lines = [] ∨ mapped_lines s companyId txData = [] →
      (import_one_transaction s companyId fiscalYearId txData).1.transactions =
          s.transactions ∧
      (import_one_transaction s companyId fiscalYearId txData).2 = 0) := by
  constructor
  · intro hlines hmapped
    unfold import_one_transaction
    have h1 : txData.lines.isEmpty = false := by
      simp [List.isEmpty_iff, hlines]
    have h2 : 0 < (mapped_lines s companyId txData).length :=
      List.length_pos.mpr hmapped
    simp [h1, h2]
  · intro h
    rcases h with h | h
    · unfold import_one_transaction
      simp [h]
    · unfold import_one_transaction
      by_cases h1 : txData.lines.isEmpty
      · simp [h1]
      · simp [h1, h]

theorem c8_import_skip_rule_witness :
    (([⟨"1930", 100, 0⟩, ⟨"3010", 0, 100⟩] :
        List SIELine) ≠ [] ∧
      mapped_lines ⟨[⟨1, 1, "1930", 0⟩, ⟨2, 1, "3010", 0⟩], [], [], 0⟩ 1
        ⟨1, 10, "Import", [⟨"1930", 100, 0⟩, ⟨"3010", 0, 100⟩]⟩ ≠ []) ∧
    import_one_transaction ⟨[⟨1, 1, "1930", 0⟩, ⟨2, 1, "3010", 0⟩], [], [], 0⟩
        1 1 ⟨1, 10, "Import", [⟨"1930", 100, 0⟩, ⟨"3010", 0, 100⟩]⟩ =
      ({ (⟨[⟨1, 1, "1930", 0⟩, ⟨2, 1, "3010", 0⟩], [], [], 0⟩ : Store) with
          transactions := ([] : List Transaction) ++
            [{ id := 0, companyId := 1, fiscalYearId := 1,
               verificationNumber := 1, transactionDate := 10,
               description := "Import",
               lines := mapped_lines
                 ⟨[⟨1, 1, "1930", 0⟩, ⟨2, 1, "3010", 0⟩], [], [], 0⟩ 1
                 ⟨1, 10, "Import", [⟨"1930", 100, 0⟩, ⟨"3010", 0, 100⟩]⟩ }]
          nextTransactionId := 0 + 1 }, 1) :=
  ⟨⟨by decide, by decide⟩,
   (c8_import_skip_rule ⟨[⟨1, 1, "1930", 0⟩, ⟨2, 1, "3010", 0⟩], [], [], 0⟩ 1 1
      ⟨1, 10, "Import", [⟨"1930", 100, 0⟩, ⟨"3010", 0, 100⟩]⟩).1
     (by decide) (by decide)⟩

theorem le_foldr_max (l : List Nat) : ∀ x ∈ l, x ≤ l.foldr max 0 := by
  induction l with
  | nil => intro x hx; cases hx
  | cons y ys ih =>
    intro x hx
    rcases List.mem_cons.mp hx with h | h
    · subst h; exact le_max_left _ _
    · exact le_trans (ih x h) (le_max_right _ _)

/-- C4 counterexample: the store model carries no unique constraint on
(company, fiscal year, verification number), and SIE import into an existing
fiscal year inserts the file's verification numbers verbatim: importing a
balanced verification numbered 1 into a slice that already holds verification
1 yields two verifications sharing the triple. -/
theorem c4_sie_import_breaks_uniqueness :
    triplesUnique
      ⟨[⟨1, 1, "1930", 0⟩, ⟨2, 1, "3010", 0⟩], [],
       [⟨0, 1, 1, 1, 20, "Gammal", [⟨1, 100, 0⟩, ⟨2, 0, 100⟩]⟩], 1⟩ ∧
    ¬ triplesUnique
      (import_transactions
        ⟨[⟨1, 1, "1930", 0⟩, ⟨2, 1, "3010", 0⟩], [],
         [⟨0, 1, 1, 1, 20, "Gammal", [⟨1, 100, 0⟩, ⟨2, 0, 100⟩]⟩], 1⟩ 1 1
        [⟨1, 25, "Import", [⟨"1930", 100, 0⟩, ⟨"3010", 0, 100⟩]⟩]).1 := by
  constructor
  · unfold triplesUnique
    decide
  · unfold triplesUnique
    decide

/-- C4 (amended): the posting engine itself preserves triple uniqueness —
every successful `create_transaction` allocates `max + 1`, which exceeds all
verification numbers already present in the (company, fiscal year) slice —
but the model has no unique constraint, and SIE import into an existing
fiscal year can violate uniqueness (see the counterexample). -/
theorem c4_create_transaction_preserves_uniqueness (s : Store)
    (companyId fiscalYearId transactionDate : Nat) (description : String)
    (lines : List TransactionLine) (s1 : Store) (t : Transaction)
    (h : triplesUnique s)
    (hok : create_transaction s companyId fiscalYearId transactionDate
        description lines = .ok (s1, t)) :
    triplesUnique s1 := by
  unfold create_transaction at hok
  by_cases h1 : (lines.map (fun l => l.debit)).sum =
      (lines.map (fun l => l.credit)).sum
  · by_cases h2 : (lines.map (fun l => l.debit)).sum = (0 : Int)
    · have hc : (lines.map (fun l => l.credit)).sum = 0 := h1 ▸ h2
      simp [h1, h2, hc] at hok
    · have hc : ¬(lines.map (fun l => l.credit)).sum = 0 := h1 ▸ h2
      dsimp only at hok
      rw [if_neg (by simpa using h1), if_neg h2] at hok
      injection hok with hok
      injection hok with hs ht
      subst hs
      unfold triplesUnique
      rw [List.pairwise_append]
      refine ⟨h, List.pairwise_singleton _ _, ?_⟩
      intro u hu v hv
      rcases List.mem_singleton.mp hv with rfl
      subst ht
      rintro ⟨huc, huf, huv⟩
      have hmem : u.verificationNumber ∈
          ((s.transactions.filter (fun w => w.companyId == companyId &&
            w.fiscalYearId == fiscalYearId)).map
              (fun w => w.verificationNumber)) := by
        refine List.mem_map_of_mem _ ?_
        refine List.mem_filter.mpr ⟨hu, ?_⟩
        simp [huc, huf]
      have hle := le_foldr_max _ _ hmem
      rw [huv] at hle
      simp only [get_next_verification_number] at hle
      omega
  · simp [h1] at hok

theorem c4_create_transaction_preserves_uniqueness_witness :
    triplesUnique
      ⟨[], [], [⟨0, 1, 1, 1, 20, "Gammal", [⟨1, 100, 0⟩, ⟨2, 0, 100⟩]⟩], 1⟩ ∧
    triplesUnique
      ⟨[], [],
       [⟨0, 1, 1, 1, 20, "Gammal", [⟨1, 100, 0⟩, ⟨2, 0, 100⟩]⟩,
        ⟨1, 1, 1, 2, 25, "Ny", [⟨1, 100, 0⟩, ⟨2, 0, 100⟩]⟩], 2⟩ :=
  ⟨by unfold triplesUnique; decide,
   c4_create_transaction_preserves_uniqueness
     ⟨[], [], [⟨0, 1, 1, 1, 20, "Gammal", [⟨1, 100, 0⟩, ⟨2, 0, 100⟩]⟩], 1⟩
     1 1 25 "Ny" [⟨1, 100, 0⟩, ⟨2, 0, 100⟩]
     ⟨[], [],
      [⟨0, 1, 1, 1, 20, "Gammal", [⟨1, 100, 0⟩, ⟨2, 0, 100⟩]⟩,
       ⟨1, 1, 1, 2, 25, "Ny", [⟨1, 100, 0⟩, ⟨2, 0, 100⟩]⟩], 2⟩
     ⟨1, 1, 1, 2, 25, "Ny", [⟨1, 100, 0⟩, ⟨2, 0, 100⟩]⟩
     (by unfold triplesUnique; decide) rfl⟩

theorem create_transaction_ok_inv (s : Store)
    (companyId fiscalYearId transactionDate : Nat) (description : String)
    (lines : List TransactionLine) (s1 : Store) (t : Transaction)
    (hok : create_transaction s companyId fiscalYearId transactionDate
        description lines = .ok (s1, t)) :
    t = { id := s.nextTransactionId, companyId := companyId,
          fiscalYearId := fiscalYearId,
          verificationNumber :=
            get_next_verification_number s companyId fiscalYearId,
          transactionDate := transactionDate, description := description,
          lines := lines } ∧
    s1 = { s with
            transactions := s.transactions ++ [t]
            nextTransactionId := s.nextTransactionId + 1 } ∧
    (lines.map (fun l => l.debit)).sum = (lines.map (fun l => l.credit)).sum ∧
    (lines.map (fun l => l.debit)).sum ≠ 0 := by
  unfold create_transaction at hok
  by_cases h1 : (lines.map (fun l => l.debit)).sum =
      (lines.map (fun l => l.credit)).sum
  · by_cases h2 : (lines.map (fun l => l.debit)).sum = (0 : Int)
    · have hc : (lines.map (fun l => l.credit)).sum = 0 := h1 ▸ h2
      simp [h1, h2, hc] at hok
    · dsimp only at hok
      rw [if_neg (by simpa using h1), if_neg h2] at hok
      injection hok with hok
      injection hok with hs ht
      subst ht
      exact ⟨rfl, hs.symm, h1, h2⟩
  · simp [h1] at hok

theorem foldr_max_base (l : List Nat) (b : Nat) :
    l.foldr max b = max b (l.foldr max 0) := by
  induction l with
  | nil => simp
  | cons x xs ih =>
    simp only [List.foldr_cons, ih]
    rw [max_left_comm]

theorem foldr_max_range (k : Nat) : (List.range' 1 k).foldr max 0 = k := by
  induction k with
  | zero => rfl
  | succ k ih =>
    rw [List.range'_concat, List.foldr_append, List.foldr_cons,
      List.foldr_nil, foldr_max_base, ih]
    omega

theorem foldr_max_mem (l : List Nat) (h : l ≠ []) : l.foldr max 0 ∈ l := by
  induction l with
  | nil => exact absurd rfl h
  | cons x xs ih =>
    by_cases hxs : xs = []
    · subst hxs
      simp
    · rw [List.foldr_cons]
      rcases max_choice x (xs.foldr max 0) with hm | hm
      · rw [hm]; exact List.mem_cons_self _ _
      · rw [hm]; exact List.mem_cons_of_mem _ (ih hxs)

theorem verification_numbers_after_create (s : Store)
    (companyId fiscalYearId transactionDate : Nat) (description : String)
    (lines : List TransactionLine) (s1 : Store) (t : Transaction)
    (hok : create_transaction s companyId fiscalYearId transactionDate
        description lines = .ok (s1, t)) :
    verification_numbers s1 companyId fiscalYearId =
      verification_numbers s companyId fiscalYearId ++
        [get_next_verification_number s companyId fiscalYearId] := by
  obtain ⟨ht, hs, _, _⟩ :=
    create_transaction_ok_inv s companyId fiscalYearId transactionDate
      description lines s1 t hok
  subst hs
  unfold verification_numbers
  rw [List.filter_append, List.map_append]
  congr 1
  subst ht
  simp

theorem run_creates_dense (companyId fiscalYearId : Nat)
    (reqs : List CreateRequest) :
    ∀ (s : Store) (k : Nat),
      verification_numbers s companyId fiscalYearId = List.range' 1 k →
      ∃ k2, verification_numbers (run_creates s companyId fiscalYearId reqs)
          companyId fiscalYearId = List.range' 1 k2 := by
  induction reqs with
  | nil => intro s k hk; exact ⟨k, hk⟩
  | cons r rs ih =>
    intro s k hk
    unfold run_creates
    cases hcr : create_transaction s companyId fiscalYearId r.transactionDate
        r.description r.lines with
    | error e => exact ih s k hk
    | ok p =>
      obtain ⟨s1, t⟩ := p
      refine ih s1 (k + 1) ?_
      rw [verification_numbers_after_create s companyId fiscalYearId
        r.transactionDate r.description r.lines s1 t hcr, hk]
      have hnext : get_next_verification_number s companyId fiscalYearId =
          k + 1 := by
        unfold get_next_verification_number
        show (verification_numbers s companyId fiscalYearId).foldr max 0 + 1 =
          k + 1
        rw [hk, foldr_max_range]
      rw [hnext, List.range'_concat, (by omega : 1 + 1 * k = k + 1)]

/-- C3: the posting engine allocates the next verification number as one plus
the greatest number in the (company, fiscal year) slice — `1` on an empty
slice, and on a nonempty slice a strict upper bound whose predecessor is
present — hence any sequence of posting-engine calls starting from an empty
slice, with no deletions, leaves the verification numbers exactly `1..k`
after each successful creation. -/
theorem c3_dense_verification_numbers (s : Store)
    (companyId fiscalYearId : Nat) :
    (verification_numbers s companyId fiscalYearId = [] →
      get_next_verification_number s companyId fiscalYearId = 1) ∧
    (∀ m ∈ verification_numbers s companyId fiscalYearId,
      m < get_next_verification_number s companyId fiscalYearId) ∧
    (verification_numbers s companyId fiscalYearId ≠ [] →
      get_next_verification_number s companyId fiscalYearId - 1 ∈
        verification_numbers s companyId fiscalYearId) ∧
    (∀ reqs : List CreateRequest,
      verification_numbers s companyId fiscalYearId = [] →
      ∃ k, verification_numbers (run_creates s companyId fiscalYearId reqs)
          companyId fiscalYearId = List.range' 1 k) := by
  refine ⟨?_, ?_, ?_, ?_⟩
  · intro h
    unfold get_next_verification_number
    show (verification_numbers s companyId fiscalYearId).foldr max 0 + 1 = 1
    rw [h]
    rfl
  · intro m hm
    have := le_foldr_max _ _ hm
    unfold get_next_verification_number
    show m < (verification_numbers s companyId fiscalYearId).foldr max 0 + 1
    omega
  · intro h
    unfold get_next_verification_number
    show (verification_numbers s companyId fiscalYearId).foldr max 0 + 1 - 1 ∈
      verification_numbers s companyId fiscalYearId
    simpa using foldr_max_mem _ h
  · intro reqs h
    exact run_creates_dense companyId fiscalYearId reqs s 0 h

theorem c3_dense_verification_numbers_witness :
    (verification_numbers ⟨[], [], [], 0⟩ 1 1 = [] ∧
      get_next_verification_number ⟨[], [], [], 0⟩ 1 1 = 1) ∧
    (∃ k, verification_numbers
        (run_creates ⟨[], [], [], 0⟩ 1 1
          [⟨5, "Hyra", [⟨1, 100, 0⟩, ⟨2, 0, 100⟩]⟩,
           ⟨6, "Lön", [⟨1, 250, 0⟩, ⟨2, 0, 250⟩]⟩,
           ⟨7, "Obalanserad", [⟨1, 50, 0⟩]⟩]) 1 1 = List.range' 1 k) :=
  ⟨⟨by decide, (c3_dense_verification_numbers ⟨[], [], [], 0⟩ 1 1).1 (by decide)⟩,
   (c3_dense_verification_numbers ⟨[], [], [], 0⟩ 1 1).2.2.2
     [⟨5, "Hyra", [⟨1, 100, 0⟩, ⟨2, 0, 100⟩]⟩,
      ⟨6, "Lön", [⟨1, 250, 0⟩, ⟨2, 0, 250⟩]⟩,
      ⟨7, "Obalanserad", [⟨1, 50, 0⟩]⟩] (by decide)⟩

/-- C6 counterexample: `create_opening_balances` reads and overwrites the
same per-account `opening_balance` column, so it is not idempotent.  Store:
account `1930` (id 1) and `2010` (id 2), opening balances 0, source year id 1
ending at date 100, one verification debiting 1930 and crediting 2010 by
10000 öre.  One call sets the opening balances to 10000 and −10000; calling
again re-adds the year's net movement and yields 20000 and −20000, so two
calls do not produce the opening balances one call produces. -/
theorem c6_carry_not_idempotent :
    (create_opening_balances
        ⟨[⟨1, 1, "1930", 0⟩, ⟨2, 1, "2010", 0⟩], [⟨1, 1, 0, 100, false⟩],
         [⟨0, 1, 1, 1, 50, "Insättning", [⟨1, 10000, 0⟩, ⟨2, 0, 10000⟩]⟩],
         1⟩ 1 1 2).map
      (fun r => r.1.accounts.map (fun a => a.openingBalance)) =
      .ok [10000, -10000] ∧
    ((create_opening_balances
        ⟨[⟨1, 1, "1930", 0⟩, ⟨2, 1, "2010", 0⟩], [⟨1, 1, 0, 100, false⟩],
         [⟨0, 1, 1, 1, 50, "Insättning", [⟨1, 10000, 0⟩, ⟨2, 0, 10000⟩]⟩],
         1⟩ 1 1 2).bind
      (fun r => create_opening_balances r.1 1 1 2)).map
      (fun r => r.1.accounts.map (fun a => a.openingBalance)) =
      .ok [20000, -20000] := by
  exact ⟨rfl, rfl⟩

/-- C6 (amended): one call to `create_opening_balances` sets, on every account
of the company whose number starts with `1` or `2` and whose closing balance
at the source year's end (computed from the pre-call opening balance) is
nonzero, the opening balance to that closing balance; every other account
keeps its opening balance — in particular an account with zero closing
balance retains a stale nonzero opening balance.  Because the written field
feeds the next computation, a second call adds the source year's net
movement again (see the counterexample), so the carry is only idempotent when
every carried account has zero net movement. -/
theorem c6_carry_single_call (s : Store)
    (companyId sourceFiscalYearId targetFiscalYearId : Nat)
    (srcFy : FiscalYear)
    (h : s.fiscalYears.find? (fun fy => fy.id == sourceFiscalYearId) =
      some srcFy) :
    (create_opening_balances s companyId sourceFiscalYearId
        targetFiscalYearId).map (fun r => r.1.accounts) =
      .ok (s.accounts.map (fun account =>
        if carriesOpeningBalance companyId account = true ∧
            get_account_balance s account.id (some srcFy.endDate) ≠ 0 then
          { account with openingBalance :=
              get_account_balance s account.id (some srcFy.endDate) }
        else account)) := by
  unfold create_opening_balances
  rw [h]
  dsimp only [Except.map]
  congr 1
  apply List.map_congr_left
  intro a _
  by_cases h1 : carriesOpeningBalance companyId a
  · by_cases h2 : get_account_balance s a.id (some srcFy.endDate) = 0
    · simp [h1, h2]
    · simp [h1, h2]
  · simp [h1]

theorem c6_carry_single_call_witness :
    ((⟨[⟨1, 1, "1930", 700⟩], [⟨1, 1, 0, 100, false⟩], [], 0⟩ :
        Store).fiscalYears.find? (fun fy => fy.id == 1) =
      some ⟨1, 1, 0, 100, false⟩) ∧
    (create_opening_balances
        ⟨[⟨1, 1, "1930", 700⟩], [⟨1, 1, 0, 100, false⟩], [], 0⟩ 1 1 2).map
      (fun r => r.1.accounts) =
      .ok ((⟨[⟨1, 1, "1930", 700⟩], [⟨1, 1, 0, 100, false⟩], [], 0⟩ :
          Store).accounts.map (fun account =>
        if carriesOpeningBalance 1 account = true ∧
            get_account_balance
              (⟨[⟨1, 1, "1930", 700⟩], [⟨1, 1, 0, 100, false⟩], [], 0⟩ : Store)
              account.id (some (100 : Nat)) ≠ 0 then
          { account with openingBalance :=
              (get_account_balance
                (⟨[⟨1, 1, "1930", 700⟩], [⟨1, 1, 0, 100, false⟩], [], 0⟩ : Store)
                account.id (some (100 : Nat))) }
        else account)) :=
  ⟨rfl,
   c6_carry_single_call
     ⟨[⟨1, 1, "1930", 700⟩], [⟨1, 1, 0, 100, false⟩], [], 0⟩ 1 1 2
     ⟨1, 1, 0, 100, false⟩ rfl⟩

theorem create_accrual_transaction_ok (s : Store) (accrual : Accrual)
    (amt : Int) (d : Nat) (h : amt ≠ 0) :
    ∃ s2 t, create_accrual_transaction s accrual amt d = .ok (s2, t) := by
  cases htype : accrual.accrualType <;>
  · unfold create_accrual_transaction
    rw [htype]
    unfold create_transaction
    dsimp only
    rw [if_neg (by simp), if_neg (by simpa using h)]
    exact ⟨_, _, rfl⟩

theorem generate_entry_fresh (s : Store) (accrual : Accrual) (d k : Nat)
    (amt : Int)
    (hdup : accrual.entries.find? (fun e => e.periodNumber == k) = none)
    (hamtdef : (if k == accrual.periods then remaining_amount accrual
                else accrual.amountPerPeriod) = amt)
    (hamt : amt ≠ 0) :
    ∃ s2, generate_entry s accrual d k = .ok (s2,
      { accrual with entries := accrual.entries ++
          [{ periodNumber := k, periodDate := d, amount := amt,
             isBooked := true }] },
      some { periodNumber := k, periodDate := d, amount := amt,
             isBooked := true }) := by
  unfold generate_entry
  rw [hdup]
  dsimp only [Option.isSome_none]
  rw [if_neg (by simp), hamtdef]
  obtain ⟨s2, t, hok⟩ := create_accrual_transaction_ok s accrual amt d hamt
  refine ⟨s2, ?_⟩
  rw [hok]
  rfl

theorem generate_entries_loop (accrual : Accrual) (dates : Nat → Nat) (n : Nat)
    (hp : accrual.periods = n) (hfresh : accrual.entries = [])
    (ha : accrual.amountPerPeriod ≠ 0) :
    ∀ m, m + 1 ≤ n → ∀ s : Store,
      ∃ s2, (List.range' 1 m).foldlM (fun acc k =>
          (generate_entry acc.1 acc.2 (dates k) k).map (fun r => (r.1, r.2.1)))
          (s, accrual) = .ok (s2,
        { accrual with entries := (List.range' 1 m).map (fun j =>
            ⟨j, dates j, accrual.amountPerPeriod, true⟩) }) := by
  intro m
  induction m with
  | zero =>
    intro _ s
    refine ⟨s, ?_⟩
    rw [List.range'_zero, List.foldlM_nil, List.map_nil, ← hfresh]
    rfl
  | succ m ih =>
    intro hm s
    obtain ⟨s2, h2⟩ := ih (by omega) s
    have hdup : ((List.range' 1 m).map (fun j =>
        (⟨j, dates j, accrual.amountPerPeriod, true⟩ : AccrualEntry))).find?
          (fun e => e.periodNumber == 1 + 1 * m) = none := by
      rw [List.find?_eq_none]
      intro e he
      obtain ⟨j, hj, rfl⟩ := List.mem_map.mp he
      obtain ⟨i, hi, rfl⟩ := List.mem_range'.mp hj
      have hne : ¬i = m := by omega
      simp [hne]
    have hper : (if ((1 + 1 * m : Nat) ==
        ({ accrual with entries := (List.range' 1 m).map (fun j =>
            (⟨j, dates j, accrual.amountPerPeriod, true⟩ : AccrualEntry)) } :
          Accrual).periods) then
          remaining_amount { accrual with
            entries := (List.range' 1 m).map (fun j =>
              ⟨j, dates j, accrual.amountPerPeriod, true⟩) }
        else
          ({ accrual with entries := (List.range' 1 m).map (fun j =>
              (⟨j, dates j, accrual.amountPerPeriod, true⟩ : AccrualEntry)) } :
            Accrual).amountPerPeriod) = accrual.amountPerPeriod := by
      rw [if_neg]
      simp only [beq_iff_eq]
      show ¬(1 + 1 * m = accrual.periods)
      omega
    obtain ⟨s3, h3⟩ := generate_entry_fresh s2
      { accrual with entries := (List.range' 1 m).map (fun j =>
          ⟨j, dates j, accrual.amountPerPeriod, true⟩) }
      (dates (1 + 1 * m)) (1 + 1 * m) accrual.amountPerPeriod hdup hper ha
    refine ⟨s3, ?_⟩
    rw [List.range'_concat, List.foldlM_append, h2]
    show (generate_entry s2 _ (dates (1 + 1 * m)) (1 + 1 * m)).map
        (fun r => (r.1, r.2.1)) >>= _ = _
    rw [h3]
    show Except.ok _ = Except.ok _
    rw [List.map_append]
    rfl

/-- C7: for a fresh accrual over `n` periods with per-period amount
`round2(T/n)` as computed at accrual creation, generating all `n` entries in
order books every entry, gives each entry `k < n` the amount `round2(T/n)`,
gives entry `n` the total minus the already-booked amounts, and therefore the
booked amounts sum exactly to the total. -/
theorem c7_accrual_totality (s : Store) (accrual : Accrual)
    (dates : Nat → Nat) (n : Nat)
    (hn : 1 ≤ n) (hp : accrual.periods = n) (hfresh : accrual.entries = [])
    (hA : accrual.amountPerPeriod = amount_per_period accrual.totalAmount n)
    (ha : accrual.amountPerPeriod ≠ 0)
    (hlast : accrual.totalAmount -
      ((n : Int) - 1) * accrual.amountPerPeriod ≠ 0) :
    ∃ s2 acc2, generate_entries s accrual dates n = .ok (s2, acc2) ∧
      acc2.entries.map (fun e => e.amount) =
        List.replicate (n - 1) (amount_per_period accrual.totalAmount n) ++
          [accrual.totalAmount -
            ((n : Int) - 1) * amount_per_period accrual.totalAmount n] ∧
      (∀ e ∈ acc2.entries, e.isBooked = true) ∧
      ((acc2.entries.filter (fun e => e.isBooked)).map
        (fun e => e.amount)).sum = accrual.totalAmount := by
  obtain ⟨m, rfl⟩ : ∃ m, n = m + 1 := ⟨n - 1, by omega⟩
  obtain ⟨s2, h2⟩ := generate_entries_loop accrual dates (m + 1) hp hfresh ha
    m (by omega) s
  have hbooked : (((List.range' 1 m).map (fun j =>
      (⟨j, dates j, accrual.amountPerPeriod, true⟩ : AccrualEntry))).filter
        (fun e => e.isBooked)) =
      (List.range' 1 m).map (fun j =>
        (⟨j, dates j, accrual.amountPerPeriod, true⟩ : AccrualEntry)) := by
    rw [List.filter_eq_self]
    intro e he
    obtain ⟨j, hj, rfl⟩ := List.mem_map.mp he
    rfl
  have hsum : ((((List.range' 1 m).map (fun j =>
      (⟨j, dates j, accrual.amountPerPeriod, true⟩ : AccrualEntry))).map
        (fun e => e.amount)).sum) = (m : Int) * accrual.amountPerPeriod := by
    rw [List.map_map]
    have : ((fun (e : AccrualEntry) => e.amount) ∘ (fun j =>
        (⟨j, dates j, accrual.amountPerPeriod, true⟩ : AccrualEntry))) =
        (fun _ => accrual.amountPerPeriod) := rfl
    rw [this, List.map_const', List.sum_replicate, List.length_range',
      nsmul_eq_mul]
  have hrem : remaining_amount
      { accrual with entries := (List.range' 1 m).map (fun j =>
          ⟨j, dates j, accrual.amountPerPeriod, true⟩) } =
      accrual.totalAmount - (m : Int) * accrual.amountPerPeriod := by
    unfold remaining_amount
    dsimp only
    rw [hbooked, hsum]
  have hper : (if ((1 + 1 * m : Nat) ==
      ({ accrual with entries := (List.range' 1 m).map (fun j =>
          (⟨j, dates j, accrual.amountPerPeriod, true⟩ : AccrualEntry)) } :
        Accrual).periods) then
        remaining_amount { accrual with
          entries := (List.range' 1 m).map (fun j =>
            ⟨j, dates j, accrual.amountPerPeriod, true⟩) }
      else
        ({ accrual with entries := (List.range' 1 m).map (fun j =>
            (⟨j, dates j, accrual.amountPerPeriod, true⟩ : AccrualEntry)) } :
          Accrual).amountPerPeriod) =
      accrual.totalAmount - (m : Int) * accrual.amountPerPeriod := by
    rw [if_pos, hrem]
    simp only [beq_iff_eq]
    show 1 + 1 * m = accrual.periods
    omega
  have hdup : ((List.range' 1 m).map (fun j =>
      (⟨j, dates j, accrual.amountPerPeriod, true⟩ : AccrualEntry))).find?
        (fun e => e.periodNumber == 1 + 1 * m) = none := by
    rw [List.find?_eq_none]
    intro e he
    obtain ⟨j, hj, rfl⟩ := List.mem_map.mp he
    obtain ⟨i, hi, rfl⟩ := List.mem_range'.mp hj
    have hne : ¬i = m := by omega
    simp [hne]
  have hlast2 : accrual.totalAmount - (m : Int) * accrual.amountPerPeriod ≠
      0 := by
    have : ((m + 1 : Nat) : Int) - 1 = (m : Int) := by push_cast; ring
    rw [this] at hlast
    exact hlast
  obtain ⟨s3, h3⟩ := generate_entry_fresh s2
    { accrual with entries := (List.range' 1 m).map (fun j =>
        ⟨j, dates j, accrual.amountPerPeriod, true⟩) }
    (dates (1 + 1 * m)) (1 + 1 * m)
    (accrual.totalAmount - (m : Int) * accrual.amountPerPeriod)
    hdup hper hlast2
  refine ⟨s3,
    { accrual with entries := ((List.range' 1 m).map (fun j =>
        (⟨j, dates j, accrual.amountPerPeriod, true⟩ : AccrualEntry))) ++
        [{ periodNumber := 1 + 1 * m, periodDate := dates (1 + 1 * m),
           amount := accrual.totalAmount -
             (m : Int) * accrual.amountPerPeriod,
           isBooked := true }] }, ?_, ?_, ?_, ?_⟩
  · unfold generate_entries
    rw [List.range'_concat, List.foldlM_append, h2]
    show (generate_entry s2 _ (dates (1 + 1 * m)) (1 + 1 * m)).map
        (fun r => (r.1, r.2.1)) >>= _ = _
    rw [h3]
    rfl
  · dsimp only
    rw [List.map_append, List.map_map]
    have hc : ((fun (e : AccrualEntry) => e.amount) ∘ (fun j =>
        (⟨j, dates j, accrual.amountPerPeriod, true⟩ : AccrualEntry))) =
        (fun _ => accrual.amountPerPeriod) := rfl
    rw [hc, List.map_const', List.length_range']
    rw [hA]
    have hmn : m + 1 - 1 = m := by omega
    rw [hmn]
    have hcast : ((m + 1 : Nat) : Int) - 1 = (m : Int) := by push_cast; ring
    rw [hcast]
    rfl
  · dsimp only
    intro e he
    rcases List.mem_append.mp he with h | h
    · obtain ⟨j, hj, rfl⟩ := List.mem_map.mp h
      rfl
    · rcases List.mem_singleton.mp h with rfl
      rfl
  · dsimp only
    rw [List.filter_append, hbooked]
    have hone : ([({ periodNumber := 1 + 1 * m,
                     periodDate := dates (1 + 1 * m),
                     amount := accrual.totalAmount -
                       (m : Int) * accrual.amountPerPeriod,
                     isBooked := true } : AccrualEntry)].filter
          (fun e => e.isBooked)) =
        [({ periodNumber := 1 + 1 * m,
            periodDate := dates (1 + 1 * m),
            amount := accrual.totalAmount -
              (m : Int) * accrual.amountPerPeriod,
            isBooked := true } : AccrualEntry)] := rfl
    rw [hone, List.map_append, List.sum_append, hsum]
    simp

theorem c7_accrual_totality_witness :
    (amount_per_period 10000 3 = 3333 ∧
      (10000 : Int) - ((3 : Int) - 1) * 3333 = 3334) ∧
    (∃ s2 acc2, generate_entries ⟨[], [], [], 0⟩
        ⟨1, 1, "Försäkring", .prepaidExpense, 10000, 3,
         amount_per_period 10000 3, 10, 20, []⟩ (fun k => k) 3 =
        .ok (s2, acc2) ∧
      acc2.entries.map (fun e => e.amount) =
        List.replicate (3 - 1) (amount_per_period 10000 3) ++
          [(10000 : Int) - ((3 : Int) - 1) * amount_per_period 10000 3] ∧
      (∀ e ∈ acc2.entries, e.isBooked = true) ∧
      ((acc2.entries.filter (fun e => e.isBooked)).map
        (fun e => e.amount)).sum = 10000) :=
  ⟨⟨by decide, by decide⟩,
   c7_accrual_totality ⟨[], [], [], 0⟩
     ⟨1, 1, "Försäkring", .prepaidExpense, 10000, 3,
      amount_per_period 10000 3, 10, 20, []⟩ (fun k => k) 3
     (by decide) rfl rfl rfl (by decide) (by decide)⟩

theorem applyStep_fold (totalAmount : Int) (l : List TemplateLineItem) :
    ∀ acc : ApplyState,
      l.foldl (applyStep totalAmount) acc =
        { lines := acc.lines ++ (l.filter (fun li => !li.isRemainder)).map
            (fun li =>
              if li.isDebit then
                (⟨li.accountId, calculate_amount li totalAmount, 0⟩ :
                  TransactionLine)
              else ⟨li.accountId, 0, calculate_amount li totalAmount⟩)
          runningTotalDebit :=
            acc.runningTotalDebit + template_debit_total l totalAmount
          runningTotalCredit :=
            acc.runningTotalCredit + template_credit_total l totalAmount
          remainderLine := (l.filter (fun li => li.isRemainder)).foldl
            (fun o li => some li) acc.remainderLine } := by
  induction l with
  | nil =>
    intro acc
    simp [template_debit_total, template_credit_total]
  | cons x xs ih =>
    intro acc
    rw [List.foldl_cons, ih]
    by_cases hrem : x.isRemainder
    · simp only [applyStep, hrem, if_true, template_debit_total,
        template_credit_total, List.filter_cons]
      simp [hrem]
    · by_cases hdeb : x.isDebit
      · simp only [applyStep, hrem, hdeb, if_true, Bool.false_eq_true,
          if_false, template_debit_total, template_credit_total,
          List.filter_cons]
        simp [hrem, hdeb, List.append_assoc, add_assoc]
      · simp only [applyStep, hrem, hdeb, Bool.false_eq_true, if_false,
          template_debit_total, template_credit_total, List.filter_cons]
        simp [hrem, hdeb, List.append_assoc, add_assoc]

theorem mk_lines_debit_sum (totalAmount : Int) (l : List TemplateLineItem) :
    (((l.filter (fun li => !li.isRemainder)).map
      (fun li =>
        if li.isDebit then
          (⟨li.accountId, calculate_amount li totalAmount, 0⟩ :
            TransactionLine)
        else ⟨li.accountId, 0, calculate_amount li totalAmount⟩)).map
      (fun x => x.debit)).sum = template_debit_total l totalAmount := by
  induction l with
  | nil => rfl
  | cons x xs ih =>
    by_cases hrem : x.isRemainder
    · simp only [template_debit_total, List.filter_cons] at *
      simp [hrem] at *
      exact ih
    · by_cases hdeb : x.isDebit
      · simp only [template_debit_total, List.filter_cons] at *
        simp [hrem, hdeb] at *
        rw [ih]
      · simp only [template_debit_total, List.filter_cons] at *
        simp [hrem, hdeb] at *
        rw [ih]

theorem mk_lines_credit_sum (totalAmount : Int) (l : List TemplateLineItem) :
    (((l.filter (fun li => !li.isRemainder)).map
      (fun li =>
        if li.isDebit then
          (⟨li.accountId, calculate_amount li totalAmount, 0⟩ :
            TransactionLine)
        else ⟨li.accountId, 0, calculate_amount li totalAmount⟩)).map
      (fun x => x.credit)).sum = template_credit_total l totalAmount := by
  induction l with
  | nil => rfl
  | cons x xs ih =>
    by_cases hrem : x.isRemainder
    · simp only [template_credit_total, List.filter_cons] at *
      simp [hrem] at *
      exact ih
    · by_cases hdeb : x.isDebit
      · simp only [template_credit_total, List.filter_cons] at *
        simp [hrem, hdeb] at *
        rw [ih]
      · simp only [template_credit_total, List.filter_cons] at *
        simp [hrem, hdeb] at *
        rw [ih]

theorem template_debit_total_perm (totalAmount : Int)
    (l l2 : List TemplateLineItem) (h : l.Perm l2) :
    template_debit_total l totalAmount = template_debit_total l2 totalAmount :=
  ((h.filter _).map _).sum_eq

theorem template_credit_total_perm (totalAmount : Int)
    (l l2 : List TemplateLineItem) (h : l.Perm l2) :
    template_credit_total l totalAmount = template_credit_total l2 totalAmount :=
  ((h.filter _).map _).sum_eq

theorem create_transaction_ok_of (s : Store)
    (companyId fiscalYearId transactionDate : Nat) (description : String)
    (lines : List TransactionLine)
    (heq : (lines.map (fun l => l.debit)).sum =
      (lines.map (fun l => l.credit)).sum)
    (hne : (lines.map (fun l => l.debit)).sum ≠ 0) :
    create_transaction s companyId fiscalYearId transactionDate description
        lines =
      .ok ({ s with
              transactions := s.transactions ++
                [{ id := s.nextTransactionId, companyId := companyId,
                   fiscalYearId := fiscalYearId,
                   verificationNumber :=
                     get_next_verification_number s companyId fiscalYearId,
                   transactionDate := transactionDate,
                   description := description, lines := lines }]
              nextTransactionId := s.nextTransactionId + 1 },
           { id := s.nextTransactionId, companyId := companyId,
             fiscalYearId := fiscalYearId,
             verificationNumber :=
               get_next_verification_number s companyId fiscalYearId,
             transactionDate := transactionDate, description := description,
             lines := lines }) := by
  unfold create_transaction
  dsimp only
  rw [if_neg (by simpa using heq), if_neg hne]

/-- C9 counterexample: a template whose fixed lines already balance (debit
10000, credit 10000) with a credit-side Remainder is structurally solvable —
a remainder of zero closes the gap — but `apply_template` at total 20000
books the remainder as `total_amount - running_total_credit = 10000`, hands
an unbalanced line set to the posting engine, and the call raises instead of
succeeding. -/
theorem c9_solvable_template_rejected :
    structurally_solvable
      ⟨1, "Mall", [⟨1, true, some 10000, none, false, 0⟩,
                   ⟨2, false, some 10000, none, false, 1⟩,
                   ⟨3, false, none, none, true, 2⟩]⟩ 20000 ∧
    apply_template ⟨[], [], [], 0⟩
      ⟨1, "Mall", [⟨1, true, some 10000, none, false, 0⟩,
                   ⟨2, false, some 10000, none, false, 1⟩,
                   ⟨3, false, none, none, true, 2⟩]⟩ 1 5 20000 =
      .error "Transaktionen balanserar inte" := by
  constructor
  · refine ⟨by decide, by decide, ?_⟩
    exact ⟨0, by decide, by decide⟩
  · rfl

/-- C9 (amended): apply_template produces a balanced verification whenever
the template has exactly one Remainder line and the fixed and percentage
lines leave a strict gap on the opposite side of the Remainder (sums being
nonnegative); the Remainder amount then closes the gap exactly.  When the
non-remainder lines already balance, the code instead books
`total_amount` minus the remainder side's running total and the call fails
(see the counterexample). -/
theorem c9_remainder_strict_gap (s : Store) (template : TransactionTemplate)
    (fiscalYearId transactionDate : Nat) (totalAmount : Int)
    (rl : TemplateLineItem)
    (hrem : template.lines.filter (fun l => l.isRemainder) = [rl])
    (hd : rl.isDebit = true →
      template_debit_total template.lines totalAmount <
        template_credit_total template.lines totalAmount ∧
      0 ≤ template_debit_total template.lines totalAmount)
    (hc : rl.isDebit = false →
      template_credit_total template.lines totalAmount <
        template_debit_total template.lines totalAmount ∧
      0 ≤ template_credit_total template.lines totalAmount) :
    ∃ s2 t, apply_template s template fiscalYearId transactionDate
        totalAmount = .ok (s2, t) ∧
      sumDebits t.lines = sumCredits t.lines ∧ sumDebits t.lines ≠ 0 := by
  have hperm := List.perm_insertionSort sortOrderLe template.lines
  have hfilter : (template.lines.insertionSort sortOrderLe).filter
      (fun l => l.isRemainder) = [rl] :=
    List.Perm.eq_singleton (hrem ▸ hperm.filter (fun l => l.isRemainder))
  have hD : template_debit_total (template.lines.insertionSort sortOrderLe)
      totalAmount = template_debit_total template.lines totalAmount :=
    template_debit_total_perm totalAmount _ _ hperm
  have hC : template_credit_total (template.lines.insertionSort sortOrderLe)
      totalAmount = template_credit_total template.lines totalAmount :=
    template_credit_total_perm totalAmount _ _ hperm
  have hDsum := mk_lines_debit_sum totalAmount
    (template.lines.insertionSort sortOrderLe)
  have hCsum := mk_lines_credit_sum totalAmount
    (template.lines.insertionSort sortOrderLe)
  rw [hD] at hDsum
  rw [hC] at hCsum
  cases hdeb : rl.isDebit with
  | true =>
    obtain ⟨hgt, hge⟩ := hd hdeb
    have happ : apply_template s template fiscalYearId transactionDate
        totalAmount =
        create_transaction s template.companyId fiscalYearId transactionDate
          ("Transaktion från mall: " ++ template.name)
          ((((template.lines.insertionSort sortOrderLe).filter
              (fun li => !li.isRemainder)).map
            (fun li =>
              if li.isDebit then
                (⟨li.accountId, calculate_amount li totalAmount, 0⟩ :
                  TransactionLine)
              else ⟨li.accountId, 0, calculate_amount li totalAmount⟩)) ++
           [⟨rl.accountId,
             template_credit_total template.lines totalAmount -
               template_debit_total template.lines totalAmount, 0⟩]) := by
      unfold apply_template
      dsimp only
      rw [applyStep_fold]
      dsimp only
      rw [hfilter]
      dsimp only [List.foldl_cons, List.foldl_nil]
      rw [if_pos hdeb, zero_add, zero_add, hD, hC]
      have hdiff : template_debit_total template.lines totalAmount -
          template_credit_total template.lines totalAmount < 0 := by omega
      rw [if_pos hdiff, abs_of_neg hdiff]
      have hpos : -(template_debit_total template.lines totalAmount -
          template_credit_total template.lines totalAmount) > 0 := by omega
      rw [if_pos hpos]
      have habs : -(template_debit_total template.lines totalAmount -
          template_credit_total template.lines totalAmount) =
          template_credit_total template.lines totalAmount -
            template_debit_total template.lines totalAmount := by ring
      rw [habs]
      rw [List.nil_append]
    have heq : ((((((template.lines.insertionSort sortOrderLe).filter
        (fun li => !li.isRemainder)).map
          (fun li =>
            if li.isDebit then
              (⟨li.accountId, calculate_amount li totalAmount, 0⟩ :
                TransactionLine)
            else ⟨li.accountId, 0, calculate_amount li totalAmount⟩)) ++
        [(⟨rl.accountId,
           template_credit_total template.lines totalAmount -
             template_debit_total template.lines totalAmount, 0⟩ :
          TransactionLine)]).map (fun l => l.debit)).sum) =
        ((((((template.lines.insertionSort sortOrderLe).filter
          (fun li => !li.isRemainder)).map
            (fun li =>
              if li.isDebit then
                (⟨li.accountId, calculate_amount li totalAmount, 0⟩ :
                  TransactionLine)
              else ⟨li.accountId, 0, calculate_amount li totalAmount⟩)) ++
          [(⟨rl.accountId,
             template_credit_total template.lines totalAmount -
               template_debit_total template.lines totalAmount, 0⟩ :
            TransactionLine)]).map (fun l => l.credit)).sum) := by
      rw [List.map_append, List.map_append, List.sum_append, List.sum_append,
        hDsum, hCsum]
      dsimp only [List.map_cons, List.map_nil, List.sum_cons, List.sum_nil]
      ring
    have hne : ((((((template.lines.insertionSort sortOrderLe).filter
        (fun li => !li.isRemainder)).map
          (fun li =>
            if li.isDebit then
              (⟨li.accountId, calculate_amount li totalAmount, 0⟩ :
                TransactionLine)
            else ⟨li.accountId, 0, calculate_amount li totalAmount⟩)) ++
        [(⟨rl.accountId,
           template_credit_total template.lines totalAmount -
             template_debit_total template.lines totalAmount, 0⟩ :
          TransactionLine)]).map (fun l => l.debit)).sum) ≠ 0 := by
      rw [List.map_append, List.sum_append, hDsum]
      dsimp only [List.map_cons, List.map_nil, List.sum_cons, List.sum_nil]
      omega
    refine ⟨_, _, happ.trans (create_transaction_ok_of s template.companyId
      fiscalYearId transactionDate
      ("Transaktion från mall: " ++ template.name) _ heq hne), ?_, ?_⟩
    · rw [sumDebits_eq_map_sum, sumCredits_eq_map_sum]
      exact heq
    · rw [sumDebits_eq_map_sum]
      exact hne
  | false =>
    obtain ⟨hgt, hge⟩ := hc hdeb
    have happ : apply_template s template fiscalYearId transactionDate
        totalAmount =
        create_transaction s template.companyId fiscalYearId transactionDate
          ("Transaktion från mall: " ++ template.name)
          ((((template.lines.insertionSort sortOrderLe).filter
              (fun li => !li.isRemainder)).map
            (fun li =>
              if li.isDebit then
                (⟨li.accountId, calculate_amount li totalAmount, 0⟩ :
                  TransactionLine)
              else ⟨li.accountId, 0, calculate_amount li totalAmount⟩)) ++
           [⟨rl.accountId, 0,
             template_debit_total template.lines totalAmount -
               template_credit_total template.lines totalAmount⟩]) := by
      unfold apply_template
      dsimp only
      rw [applyStep_fold]
      dsimp only
      rw [hfilter]
      dsimp only [List.foldl_cons, List.foldl_nil]
      rw [hdeb]
      rw [if_neg (by simp), zero_add, zero_add, hD, hC]
      have hdiff : template_debit_total template.lines totalAmount -
          template_credit_total template.lines totalAmount > 0 := by omega
      rw [if_pos hdiff, abs_of_pos hdiff, if_pos hdiff]
      rw [List.nil_append]
    have heq : ((((((template.lines.insertionSort sortOrderLe).filter
        (fun li => !li.isRemainder)).map
          (fun li =>
            if li.isDebit then
              (⟨li.accountId, calculate_amount li totalAmount, 0⟩ :
                TransactionLine)
            else ⟨li.accountId, 0, calculate_amount li totalAmount⟩)) ++
        [(⟨rl.accountId, 0,
           template_debit_total template.lines totalAmount -
             template_credit_total template.lines totalAmount⟩ :
          TransactionLine)]).map (fun l => l.debit)).sum) =
        ((((((template.lines.insertionSort sortOrderLe).filter
          (fun li => !li.isRemainder)).map
            (fun li =>
              if li.isDebit then
                (⟨li.accountId, calculate_amount li totalAmount, 0⟩ :
                  TransactionLine)
              else ⟨li.accountId, 0, calculate_amount li totalAmount⟩)) ++
          [(⟨rl.accountId, 0,
             template_debit_total template.lines totalAmount -
               template_credit_total template.lines totalAmount⟩ :
            TransactionLine)]).map (fun l => l.credit)).sum) := by
      rw [List.map_append, List.map_append, List.sum_append, List.sum_append,
        hDsum, hCsum]
      dsimp only [List.map_cons, List.map_nil, List.sum_cons, List.sum_nil]
      ring
    have hne : ((((((template.lines.insertionSort sortOrderLe).filter
        (fun li => !li.isRemainder)).map
          (fun li =>
            if li.isDebit then
              (⟨li.accountId, calculate_amount li totalAmount, 0⟩ :
                TransactionLine)
            else ⟨li.accountId, 0, calculate_amount li totalAmount⟩)) ++
        [(⟨rl.accountId, 0,
           template_debit_total template.lines totalAmount -
             template_credit_total template.lines totalAmount⟩ :
          TransactionLine)]).map (fun l => l.debit)).sum) ≠ 0 := by
      rw [List.map_append, List.sum_append, hDsum]
      dsimp only [List.map_cons, List.map_nil, List.sum_cons, List.sum_nil]
      omega
    refine ⟨_, _, happ.trans (create_transaction_ok_of s template.companyId
      fiscalYearId transactionDate
      ("Transaktion från mall: " ++ template.name) _ heq hne), ?_, ?_⟩
    · rw [sumDebits_eq_map_sum, sumCredits_eq_map_sum]
      exact heq
    · rw [sumDebits_eq_map_sum]
      exact hne

theorem c9_remainder_strict_gap_witness :
    ((⟨1, true, some 10000, none, false, 0⟩ :: [⟨2, false, none, none, true,
        1⟩] : List TemplateLineItem).filter (fun l => l.isRemainder) =
      [⟨2, false, none, none, true, 1⟩] ∧
      template_credit_total
          [⟨1, true, some 10000, none, false, 0⟩,
           ⟨2, false, none, none, true, 1⟩] 777 <
        template_debit_total
          [⟨1, true, some 10000, none, false, 0⟩,
           ⟨2, false, none, none, true, 1⟩] 777 ∧
      0 ≤ template_credit_total
          [⟨1, true, some 10000, none, false, 0⟩,
           ⟨2, false, none, none, true, 1⟩] 777) ∧
    (∃ s2 t, apply_template ⟨[], [], [], 0⟩
        ⟨1, "Mall", [⟨1, true, some 10000, none, false, 0⟩,
                     ⟨2, false, none, none, true, 1⟩]⟩ 1 5 777 =
        .ok (s2, t) ∧
      sumDebits t.lines = sumCredits t.lines ∧ sumDebits t.lines ≠ 0) :=
  ⟨⟨by decide, by decide, by decide⟩,
   c9_remainder_strict_gap ⟨[], [], [], 0⟩
     ⟨1, "Mall", [⟨1, true, some 10000, none, false, 0⟩,
                  ⟨2, false, none, none, true, 1⟩]⟩ 1 5 777
     ⟨2, false, none, none, true, 1⟩ (by decide)
     (fun h => by simp at h) (fun _ => ⟨by decide, by decide⟩)⟩

theorem sum_map_add {α : Type} (L : List α) (f g : α → Int) :
    (L.map (fun a => f a + g a)).sum = (L.map f).sum + (L.map g).sum := by
  induction L with
  | nil => simp
  | cons x xs ih =>
    simp only [List.map_cons, List.sum_cons, ih]
    ring

theorem get_account_balance_append (s : Store) (t : Transaction)
    (accountId : Nat) (d : Nat) (n2 : Nat) (fys2 : List FiscalYear)
    (acc : Account)
    (ha : s.accounts.find? (fun x => x.id == accountId) = some acc) :
    get_account_balance
        { s with
            transactions := s.transactions ++ [t]
            nextTransactionId := n2
            fiscalYears := fys2 }
        accountId (some d) =
      get_account_balance s accountId (some d) +
        (if t.transactionDate ≤ d then
          ((t.lines.filter (fun l => l.accountId == accountId)).map
            (fun l => l.debit)).sum -
          ((t.lines.filter (fun l => l.accountId == accountId)).map
            (fun l => l.credit)).sum
        else 0) := by
  unfold get_account_balance
  rw [show ({ s with
      transactions := s.transactions ++ [t]
      nextTransactionId := n2
      fiscalYears := fys2 } : Store).accounts = s.accounts from rfl, ha]
  dsimp only
  rw [List.filter_append, List.map_append, List.flatten_append,
    List.map_append, List.map_append, List.sum_append, List.sum_append]
  by_cases hd : t.transactionDate ≤ d
  · rw [if_pos hd]
    rw [show (List.filter (fun u => decide (u.transactionDate ≤ d)) [t]) =
      [t] from by simp [hd]]
    dsimp only [List.map_cons, List.map_nil, List.flatten_cons,
      List.flatten_nil, List.sum_cons, List.sum_nil]
    simp only [List.append_nil]
    ring
  · rw [if_neg hd]
    rw [show (List.filter (fun u => decide (u.transactionDate ≤ d)) [t]) =
      [] from by simp [hd]]
    dsimp only [List.map_nil, List.flatten_nil, List.sum_nil]
    ring

theorem get_account_balance_append_untouched (s : Store) (t : Transaction)
    (accountId : Nat) (cutoff : Option Nat) (n2 : Nat)
    (fys2 : List FiscalYear)
    (h : ∀ l ∈ t.lines, l.accountId ≠ accountId) :
    get_account_balance
        { s with
            transactions := s.transactions ++ [t]
            nextTransactionId := n2
            fiscalYears := fys2 }
        accountId cutoff =
      get_account_balance s accountId cutoff := by
  unfold get_account_balance
  rw [show ({ s with
      transactions := s.transactions ++ [t]
      nextTransactionId := n2
      fiscalYears := fys2 } : Store).accounts = s.accounts from rfl]
  cases hfind : s.accounts.find? (fun x => x.id == accountId) with
  | none => rfl
  | some acc =>
    dsimp only
    have hlines : t.lines.filter (fun l => l.accountId == accountId) = [] := by
      rw [List.filter_eq_nil_iff]
      intro l hl
      simp [h l hl]
    rw [List.filter_append, List.map_append, List.flatten_append,
      List.map_append, List.map_append, List.sum_append, List.sum_append]
    have hz : ∀ P : Transaction → Bool,
        ((((List.filter P [t]).map (fun u =>
          u.lines.filter (fun l => l.accountId == accountId))).flatten).map
            (fun l => l.debit)).sum = 0 ∧
        ((((List.filter P [t]).map (fun u =>
          u.lines.filter (fun l => l.accountId == accountId))).flatten).map
            (fun l => l.credit)).sum = 0 := by
      intro P
      rw [List.filter_cons, List.filter_nil]
      by_cases hP : P t
      · rw [if_pos hP]
        dsimp only [List.map_cons, List.map_nil, List.flatten_cons,
          List.flatten_nil]
        rw [hlines]
        simp
      · rw [if_neg hP]
        simp
    rw [(hz _).1, (hz _).2]
    ring

theorem trial_diff_eq_sum (s : Store) (cutoff : Option Nat)
    (L : List Account) :
    (((L.map (fun account =>
        if get_account_balance s account.id cutoff ≠ 0 then
          if get_account_balance s account.id cutoff ≥ 0 then
            [({ accountNumber := account.number,
                balance := get_account_balance s account.id cutoff,
                debit := get_account_balance s account.id cutoff,
                credit := 0 } : TrialBalanceEntry)]
          else
            [({ accountNumber := account.number,
                balance := get_account_balance s account.id cutoff,
                debit := 0,
                credit := -get_account_balance s account.id cutoff } :
              TrialBalanceEntry)]
        else [])).flatten).map (fun b => b.debit)).sum -
    (((L.map (fun account =>
        if get_account_balance s account.id cutoff ≠ 0 then
          if get_account_balance s account.id cutoff ≥ 0 then
            [({ accountNumber := account.number,
                balance := get_account_balance s account.id cutoff,
                debit := get_account_balance s account.id cutoff,
                credit := 0 } : TrialBalanceEntry)]
          else
            [({ accountNumber := account.number,
                balance := get_account_balance s account.id cutoff,
                debit := 0,
                credit := -get_account_balance s account.id cutoff } :
              TrialBalanceEntry)]
        else [])).flatten).map (fun b => b.credit)).sum =
    (L.map (fun a => get_account_balance s a.id cutoff)).sum := by
  induction L with
  | nil => simp
  | cons x xs ih =>
    simp only [List.map_cons, List.flatten_cons, List.map_append,
      List.sum_append, List.sum_cons]
    by_cases h0 : get_account_balance s x.id cutoff ≠ 0
    · by_cases hge : get_account_balance s x.id cutoff ≥ 0
      · rw [if_pos h0, if_pos hge]
        simp only [List.map_cons, List.map_nil, List.sum_cons, List.sum_nil]
        omega
      · rw [if_pos h0, if_neg hge]
        simp only [List.map_cons, List.map_nil, List.sum_cons, List.sum_nil]
        omega
    · rw [if_neg h0]
      push_neg at h0
      simp only [List.map_nil, List.sum_nil]
      omega

theorem sum_if_id (L : List Account) (i : Nat) (y : Int) :
    (L.map (fun a => if a.id = i then y else 0)).sum =
      ((L.map (fun a => a.id)).count i : Int) * y := by
  induction L with
  | nil => simp
  | cons x xs ih =>
    rw [List.map_cons, List.sum_cons, ih, List.map_cons, List.count_cons]
    by_cases hx : x.id = i
    · have e1 : (x.id == i) = true := by rw [beq_iff_eq]; omega
      rw [if_pos hx]
      simp only [e1, if_true]
      push_cast
      ring
    · have e1 : (x.id == i) = false := by rw [beq_eq_false_iff_ne]; omega
      rw [if_neg hx]
      simp only [e1, Bool.false_eq_true, if_false]
      push_cast
      ring

theorem delta_disposition_line (a : Account) (i j : Nat) (x : Int)
    (hij : i ≠ j) :
    ((([⟨i, x, 0⟩, ⟨j, 0, x⟩] : List TransactionLine).filter
      (fun l => l.accountId == a.id)).map (fun l => l.debit)).sum -
    ((([⟨i, x, 0⟩, ⟨j, 0, x⟩] : List TransactionLine).filter
      (fun l => l.accountId == a.id)).map (fun l => l.credit)).sum =
      (if a.id = i then x else 0) + (if a.id = j then -x else 0) := by
  by_cases h1 : a.id = i
  · have e1 : (i == a.id) = true := by rw [beq_iff_eq]; omega
    have e2 : (j == a.id) = false := by rw [beq_eq_false_iff_ne]; omega
    simp only [List.filter_cons, List.filter_nil, e1, e2, if_true,
      Bool.false_eq_true, if_false, List.map_cons, List.map_nil,
      List.sum_cons, List.sum_nil]
    rw [if_pos h1, if_neg (by omega)]
    ring
  · by_cases h2 : a.id = j
    · have e1 : (i == a.id) = false := by rw [beq_eq_false_iff_ne]; omega
      have e2 : (j == a.id) = true := by rw [beq_iff_eq]; omega
      simp only [List.filter_cons, List.filter_nil, e1, e2, if_true,
        Bool.false_eq_true, if_false, List.map_cons, List.map_nil,
        List.sum_cons, List.sum_nil]
      rw [if_neg h1, if_pos h2]
      ring
    · have e1 : (i == a.id) = false := by rw [beq_eq_false_iff_ne]; omega
      have e2 : (j == a.id) = false := by rw [beq_eq_false_iff_ne]; omega
      simp only [List.filter_cons, List.filter_nil, e1, e2,
        Bool.false_eq_true, if_false, List.map_nil, List.sum_nil]
      rw [if_neg h1, if_neg h2]
      ring

theorem find_id_of_nodup (accounts : List Account)
    (hids : (accounts.map (fun a => a.id)).Nodup) (a : Account)
    (ha : a ∈ accounts) :
    accounts.find? (fun x => x.id == a.id) = some a := by
  induction accounts with
  | nil => cases ha
  | cons b bs ih =>
    rw [List.map_cons, List.nodup_cons] at hids
    rcases List.mem_cons.mp ha with rfl | hmem
    · rw [List.find?_cons_of_pos _ (by simp)]
    · have hne : ¬((fun x => x.id == a.id) b = true) := by
        simp only [beq_iff_eq]
        intro hh
        exact hids.1 (hh ▸ List.mem_map_of_mem (fun x => x.id) hmem)
      rw [@List.find?_cons_of_neg _ (fun x => x.id == a.id) b bs hne]
      exact ih hids.2 hmem

theorem find_fy_map_closed (fys : List FiscalYear) (fiscalYearId : Nat)
    (fy : FiscalYear)
    (h : fys.find? (fun x => x.id == fiscalYearId) = some fy) :
    (fys.map (fun x => if x.id == fiscalYearId then
        { x with isClosed := true } else x)).find?
      (fun x => x.id == fiscalYearId) = some { fy with isClosed := true } := by
  induction fys with
  | nil => cases h
  | cons y ys ih =>
    by_cases hy : ((fun x : FiscalYear => x.id == fiscalYearId) y = true)
    · rw [@List.find?_cons_of_pos _ (fun x => x.id == fiscalYearId) y ys hy]
        at h
      injection h with h
      subst h
      rw [List.map_cons, if_pos hy]
      rw [@List.find?_cons_of_pos _ (fun x => x.id == fiscalYearId)
        { y with isClosed := true }
        (ys.map (fun x => if x.id == fiscalYearId then
          { x with isClosed := true } else x)) hy]
    · rw [@List.find?_cons_of_neg _ (fun x => x.id == fiscalYearId) y ys hy]
        at h
      rw [List.map_cons, if_neg hy]
      rw [@List.find?_cons_of_neg _ (fun x => x.id == fiscalYearId) y
        (ys.map (fun x => if x.id == fiscalYearId then
          { x with isClosed := true } else x)) hy]
      exact ih h

theorem foldl_congr_mem {α β : Type} (L : List α) (f g : β → α → β) :
    ∀ (init : β), (∀ b, ∀ x ∈ L, f b x = g b x) →
      L.foldl f init = L.foldl g init := by
  induction L with
  | nil => intro _ _; rfl
  | cons x xs ih =>
    intro init h
    rw [List.foldl_cons, List.foldl_cons, h init x (List.mem_cons_self _ _)]
    exact ih _ (fun b y hy => h b y (List.mem_cons_of_mem _ hy))

theorem trial_diff_key (st : Store) (companyId d : Nat) :
    ((get_trial_balance st companyId (some d)).map (fun b => b.debit)).sum -
    ((get_trial_balance st companyId (some d)).map (fun b => b.credit)).sum =
      ((get_accounts st companyId).map (fun a =>
        get_account_balance st a.id (some d))).sum :=
  trial_diff_eq_sum st (some d) (get_accounts st companyId)

theorem mem_get_accounts (s : Store) (companyId : Nat) (a : Account)
    (ha : a ∈ get_accounts s companyId) :
    a ∈ s.accounts ∧ a.companyId = companyId := by
  unfold get_accounts at ha
  have := (List.perm_insertionSort accountNumberLe _).mem_iff.mp ha
  have h2 := List.mem_filter.mp this
  exact ⟨h2.1, by simpa using h2.2⟩

theorem validate_closing_append_disposition (s : Store) (companyId d : Nat)
    (t1 : Transaction) (n2 : Nat) (fys2 : List FiscalYear) (i j : Nat)
    (x : Int)
    (hlines : t1.lines = [⟨i, x, 0⟩, ⟨j, 0, x⟩])
    (hij : i ≠ j)
    (hci : ((get_accounts s companyId).map (fun a => a.id)).count i = 1)
    (hcj : ((get_accounts s companyId).map (fun a => a.id)).count j = 1)
    (hdate : t1.transactionDate ≤ d)
    (hval : validate_closing s companyId d = true) :
    validate_closing
      { s with
          transactions := s.transactions ++ [t1]
          nextTransactionId := n2
          fiscalYears := fys2 } companyId d = true := by
  have hacc : get_accounts
      { s with
          transactions := s.transactions ++ [t1]
          nextTransactionId := n2
          fiscalYears := fys2 } companyId = get_accounts s companyId := rfl
  have hmap : (get_accounts s companyId).map (fun a =>
      get_account_balance
        { s with
            transactions := s.transactions ++ [t1]
            nextTransactionId := n2
            fiscalYears := fys2 } a.id (some d)) =
      (get_accounts s companyId).map (fun a =>
        get_account_balance s a.id (some d) +
          ((if a.id = i then x else 0) + (if a.id = j then -x else 0))) := by
    apply List.map_congr_left
    intro a ha
    have hmem := (mem_get_accounts s companyId a ha).1
    have hfs : (s.accounts.find? (fun u => u.id == a.id)).isSome := by
      rw [List.find?_isSome]
      exact ⟨a, hmem, by simp⟩
    obtain ⟨acc, hfind⟩ := Option.isSome_iff_exists.mp hfs
    rw [get_account_balance_append s t1 a.id d n2 fys2 acc hfind,
      if_pos hdate, hlines, delta_disposition_line a i j x hij]
  have k1 := trial_diff_key s companyId d
  have k2 := trial_diff_key
    { s with
        transactions := s.transactions ++ [t1]
        nextTransactionId := n2
        fiscalYears := fys2 } companyId d
  rw [hacc, hmap, sum_map_add, sum_map_add, sum_if_id, sum_if_id, hci, hcj]
    at k2
  unfold validate_closing check_trial_balance at hval ⊢
  dsimp only at hval ⊢
  rw [decide_eq_true_eq, abs_lt] at hval ⊢
  omega

theorem calculate_period_result_append_untouched (s : Store)
    (companyId startDate endDate : Nat) (t1 : Transaction) (n2 : Nat)
    (fys2 : List FiscalYear)
    (hcls : ∀ a ∈ get_accounts s companyId, ∀ ch,
      a.number.data.head? = some ch →
      (ch = '3' ∨ ch ∈ (['4', '5', '6', '7', '8'] : List Char)) →
      ∀ l ∈ t1.lines, l.accountId ≠ a.id) :
    calculate_period_result
      { s with
          transactions := s.transactions ++ [t1]
          nextTransactionId := n2
          fiscalYears := fys2 } companyId startDate endDate =
      calculate_period_result s companyId startDate endDate := by
  unfold calculate_period_result
  dsimp only
  have hacc : get_accounts
      { s with
          transactions := s.transactions ++ [t1]
          nextTransactionId := n2
          fiscalYears := fys2 } companyId = get_accounts s companyId := rfl
  rw [hacc]
  have hfold := foldl_congr_mem (get_accounts s companyId)
    (fun (acc : Int × Int) account =>
      match account.number.data.head? with
      | none => acc
      | some firstDigit =>
        if firstDigit = '3' then
          (acc.1 + get_account_balance
            { s with
                transactions := s.transactions ++ [t1]
                nextTransactionId := n2
                fiscalYears := fys2 } account.id (some endDate), acc.2)
        else if firstDigit ∈ ['4', '5', '6', '7', '8'] then
          (acc.1, acc.2 + get_account_balance
            { s with
                transactions := s.transactions ++ [t1]
                nextTransactionId := n2
                fiscalYears := fys2 } account.id (some endDate))
        else acc)
    (fun (acc : Int × Int) account =>
      match account.number.data.head? with
      | none => acc
      | some firstDigit =>
        if firstDigit = '3' then
          (acc.1 + get_account_balance s account.id (some endDate), acc.2)
        else if firstDigit ∈ ['4', '5', '6', '7', '8'] then
          (acc.1, acc.2 + get_account_balance s account.id (some endDate))
        else acc)
    (0, 0) ?_
  · rw [hfold]
  · intro b a ha
    dsimp only
    cases hh : a.number.data.head? with
    | none => rfl
    | some ch =>
      have hbal : (ch = '3' ∨ ch ∈ (['4', '5', '6', '7', '8'] : List Char)) →
          get_account_balance
            { s with
                transactions := s.transactions ++ [t1]
                nextTransactionId := n2
                fiscalYears := fys2 } a.id (some endDate) =
            get_account_balance s a.id (some endDate) := by
        intro hch
        exact get_account_balance_append_untouched s t1 a.id (some endDate)
          n2 fys2 (hcls a ha ch hh hch)
      by_cases h3 : ch = '3'
      · rw [hbal (Or.inl h3)]
      · by_cases h48 : ch ∈ (['4', '5', '6', '7', '8'] : List Char)
        · rw [hbal (Or.inr h48)]
        · dsimp only
          rw [if_neg h3, if_neg h48, if_neg h3, if_neg h48]

theorem close_year_books_disposition (s : Store)
    (companyId fiscalYearId : Nat) (fy : FiscalYear) (a99 a98 : Account)
    (hfy : s.fiscalYears.find? (fun x => x.id == fiscalYearId) = some fy)
    (h99 : (get_accounts s companyId).find? (fun a => a.number == "2099") =
      some a99)
    (h98 : (get_accounts s companyId).find? (fun a => a.number == "2098") =
      some a98)
    (hval : validate_closing s companyId fy.endDate = true)
    (hr : calculate_period_result s companyId fy.startDate fy.endDate ≠ 0) :
    ∃ t1 : Transaction,
      close_year s companyId fiscalYearId true = .ok
        ({ s with
            transactions := s.transactions ++ [t1]
            nextTransactionId := s.nextTransactionId + 1
            fiscalYears := s.fiscalYears.map (fun x =>
              if x.id == fiscalYearId then { x with isClosed := true }
              else x) },
         { result :=
             calculate_period_result s companyId fy.startDate fy.endDate
           isValid := true
           dispositionCreated := true
           closed := true }) ∧
      t1.transactionDate = fy.endDate ∧
      (t1.lines = [⟨a99.id,
          |calculate_period_result s companyId fy.startDate fy.endDate|, 0⟩,
         ⟨a98.id, 0,
          |calculate_period_result s companyId fy.startDate fy.endDate|⟩] ∨
       t1.lines = [⟨a98.id,
          |calculate_period_result s companyId fy.startDate fy.endDate|, 0⟩,
         ⟨a99.id, 0,
          |calculate_period_result s companyId fy.startDate fy.endDate|⟩]) := by
  have habs : |calculate_period_result s companyId fy.startDate
      fy.endDate| ≠ 0 := by
    simpa using hr
  rcases lt_or_gt_of_ne hr with hneg | hpos
  · have hcr := create_transaction_ok_of s companyId fiscalYearId fy.endDate
      "Resultatdisposition"
      [⟨a98.id,
        |calculate_period_result s companyId fy.startDate fy.endDate|, 0⟩,
       ⟨a99.id, 0,
        |calculate_period_result s companyId fy.startDate fy.endDate|⟩]
      (by simp) (by simpa using habs)
    refine ⟨{ id := s.nextTransactionId, companyId := companyId,
              fiscalYearId := fiscalYearId,
              verificationNumber :=
                get_next_verification_number s companyId fiscalYearId,
              transactionDate := fy.endDate,
              description := "Resultatdisposition",
              lines := [⟨a98.id,
                |calculate_period_result s companyId fy.startDate
                  fy.endDate|, 0⟩,
               ⟨a99.id, 0,
                |calculate_period_result s companyId fy.startDate
                  fy.endDate|⟩] },
      ?_, rfl, Or.inr rfl⟩
    unfold close_year
    rw [hfy]
    dsimp only
    rw [hval, if_pos (show (true && true) = true from rfl)]
    unfold create_result_disposition
    dsimp only
    rw [if_neg hr, h99, h98]
    dsimp only
    rw [if_neg (by omega)]
    rw [hcr]
    rfl
  · have hcr := create_transaction_ok_of s companyId fiscalYearId fy.endDate
      "Resultatdisposition"
      [⟨a99.id,
        |calculate_period_result s companyId fy.startDate fy.endDate|, 0⟩,
       ⟨a98.id, 0,
        |calculate_period_result s companyId fy.startDate fy.endDate|⟩]
      (by simp) (by simpa using habs)
    refine ⟨{ id := s.nextTransactionId, companyId := companyId,
              fiscalYearId := fiscalYearId,
              verificationNumber :=
                get_next_verification_number s companyId fiscalYearId,
              transactionDate := fy.endDate,
              description := "Resultatdisposition",
              lines := [⟨a99.id,
                |calculate_period_result s companyId fy.startDate
                  fy.endDate|, 0⟩,
               ⟨a98.id, 0,
                |calculate_period_result s companyId fy.startDate
                  fy.endDate|⟩] },
      ?_, rfl, Or.inl rfl⟩
    unfold close_year
    rw [hfy]
    dsimp only
    rw [hval, if_pos (show (true && true) = true from rfl)]
    unfold create_result_disposition
    dsimp only
    rw [if_neg hr, h99, h98]
    dsimp only
    rw [if_pos hpos]
    rw [hcr]
    rfl

/-- C10: close_year never tests the fiscal year's is_closed flag.  Whenever
closing validation passes, the period result is nonzero, accounts 2099 and
2098 resolve, and account ids are distinct, a call books a result-disposition
verification on those two accounts and marks the year closed — and a second
call on the then-closed year books the same disposition again, leaving two
disposition verifications of amount equal to the absolute period result. -/
theorem c10_close_year_double_disposition (s : Store)
    (companyId fiscalYearId : Nat) (fy : FiscalYear) (a99 a98 : Account)
    (hfy : s.fiscalYears.find? (fun x => x.id == fiscalYearId) = some fy)
    (h99 : (get_accounts s companyId).find? (fun a => a.number == "2099") =
      some a99)
    (h98 : (get_accounts s companyId).find? (fun a => a.number == "2098") =
      some a98)
    (hval : validate_closing s companyId fy.endDate = true)
    (hr : calculate_period_result s companyId fy.startDate fy.endDate ≠ 0)
    (hids : (s.accounts.map (fun a => a.id)).Nodup) :
    ∃ (s2 s4 : Store) (res1 res2 : CloseYearResult) (t1 t2 : Transaction),
      close_year s companyId fiscalYearId true = .ok (s2, res1) ∧
      res1.dispositionCreated = true ∧
      s2.transactions = s.transactions ++ [t1] ∧
      ((s2.fiscalYears.find? (fun x => x.id == fiscalYearId)).map
        (fun x => x.isClosed)) = some true ∧
      close_year s2 companyId fiscalYearId true = .ok (s4, res2) ∧
      res2.dispositionCreated = true ∧
      s4.transactions = s.transactions ++ [t1, t2] ∧
      (∀ l ∈ t1.lines, l.accountId = a99.id ∨ l.accountId = a98.id) ∧
      (∀ l ∈ t2.lines, l.accountId = a99.id ∨ l.accountId = a98.id) ∧
      sumDebits t1.lines =
        |calculate_period_result s companyId fy.startDate fy.endDate| ∧
      sumDebits t2.lines =
        |calculate_period_result s companyId fy.startDate fy.endDate| := by
  have h99mem : a99 ∈ get_accounts s companyId :=
    List.mem_of_find?_eq_some h99
  have h98mem : a98 ∈ get_accounts s companyId :=
    List.mem_of_find?_eq_some h98
  have h99num : a99.number = "2099" := by
    simpa using List.find?_some h99
  have h98num : a98.number = "2098" := by
    simpa using List.find?_some h98
  have h99acc : a99 ∈ s.accounts := (mem_get_accounts s companyId a99 h99mem).1
  have h98acc : a98 ∈ s.accounts := (mem_get_accounts s companyId a98 h98mem).1
  have hLnodup : ((get_accounts s companyId).map (fun a => a.id)).Nodup := by
    have hsub : ((s.accounts.filter
        (fun a => a.companyId == companyId)).map
          (fun a : Account => a.id)).Sublist
        (s.accounts.map (fun a : Account => a.id)) :=
      List.Sublist.map (fun a : Account => a.id)
        (List.filter_sublist s.accounts)
    have hfn := hids.sublist hsub
    exact (((List.perm_insertionSort accountNumberLe _).map
      (fun a => a.id)).nodup_iff).mpr hfn
  have hij : a99.id ≠ a98.id := by
    intro hh
    have := List.inj_on_of_nodup_map hids h99acc h98acc hh
    rw [this] at h99num
    rw [h98num] at h99num
    exact absurd h99num (by decide)
  have hci : ((get_accounts s companyId).map (fun a => a.id)).count a99.id =
      1 :=
    List.count_eq_one_of_mem hLnodup
      (List.mem_map_of_mem (fun a => a.id) h99mem)
  have hcj : ((get_accounts s companyId).map (fun a => a.id)).count a98.id =
      1 :=
    List.count_eq_one_of_mem hLnodup
      (List.mem_map_of_mem (fun a => a.id) h98mem)
  obtain ⟨t1, hclose1, hdate1, hlines1⟩ :=
    close_year_books_disposition s companyId fiscalYearId fy a99 a98
      hfy h99 h98 hval hr
  have ht1touch : ∀ l ∈ t1.lines,
      l.accountId = a99.id ∨ l.accountId = a98.id := by
    intro l hl
    rcases hlines1 with h | h <;> rw [h] at hl <;>
      rcases List.mem_cons.mp hl with rfl | hl2
    · exact Or.inl rfl
    · rcases List.mem_singleton.mp hl2 with rfl
      exact Or.inr rfl
    · exact Or.inr rfl
    · rcases List.mem_singleton.mp hl2 with rfl
      exact Or.inl rfl
  have hcls : ∀ a ∈ get_accounts s companyId, ∀ ch,
      a.number.data.head? = some ch →
      (ch = '3' ∨ ch ∈ (['4', '5', '6', '7', '8'] : List Char)) →
      ∀ l ∈ t1.lines, l.accountId ≠ a.id := by
    intro a ha ch hch hch38 l hl heq
    have haacc : a ∈ s.accounts := (mem_get_accounts s companyId a ha).1
    rcases ht1touch l hl with h | h
    · have : a99 = a :=
        List.inj_on_of_nodup_map hids h99acc haacc (h ▸ heq ▸ rfl)
      rw [← this, h99num] at hch
      have : ch = '2' := by simpa using hch.symm
      subst this
      rcases hch38 with h2 | h2
      · exact absurd h2 (by decide)
      · exact absurd h2 (by decide)
    · have : a98 = a :=
        List.inj_on_of_nodup_map hids h98acc haacc (h ▸ heq ▸ rfl)
      rw [← this, h98num] at hch
      have : ch = '2' := by simpa using hch.symm
      subst this
      rcases hch38 with h2 | h2
      · exact absurd h2 (by decide)
      · exact absurd h2 (by decide)
  have hfy2 :
      ((s.fiscalYears.map (fun x => if x.id == fiscalYearId then
        { x with isClosed := true } else x)).find?
          (fun x => x.id == fiscalYearId)) =
        some { fy with isClosed := true } :=
    find_fy_map_closed s.fiscalYears fiscalYearId fy hfy
  have hval2 : validate_closing
      { s with
          transactions := s.transactions ++ [t1]
          nextTransactionId := s.nextTransactionId + 1
          fiscalYears := s.fiscalYears.map (fun x =>
            if x.id == fiscalYearId then { x with isClosed := true }
            else x) } companyId fy.endDate = true := by
    rcases hlines1 with h | h
    · exact validate_closing_append_disposition s companyId fy.endDate t1
        (s.nextTransactionId + 1) _ a99.id a98.id
        |calculate_period_result s companyId fy.startDate fy.endDate|
        h hij hci hcj (by rw [hdate1]) hval
    · exact validate_closing_append_disposition s companyId fy.endDate t1
        (s.nextTransactionId + 1) _ a98.id a99.id
        |calculate_period_result s companyId fy.startDate fy.endDate|
        h (fun hh => hij hh.symm) hcj hci (by rw [hdate1]) hval
  have hres2 : calculate_period_result
      { s with
          transactions := s.transactions ++ [t1]
          nextTransactionId := s.nextTransactionId + 1
          fiscalYears := s.fiscalYears.map (fun x =>
            if x.id == fiscalYearId then { x with isClosed := true }
            else x) } companyId fy.startDate fy.endDate =
      calculate_period_result s companyId fy.startDate fy.endDate :=
    calculate_period_result_append_untouched s companyId fy.startDate
      fy.endDate t1 (s.nextTransactionId + 1) _ hcls
  obtain ⟨t2, hclose2, hdate2, hlines2⟩ :=
    close_year_books_disposition
      { s with
          transactions := s.transactions ++ [t1]
          nextTransactionId := s.nextTransactionId + 1
          fiscalYears := s.fiscalYears.map (fun x =>
            if x.id == fiscalYearId then { x with isClosed := true }
            else x) } companyId fiscalYearId { fy with isClosed := true }
      a99 a98 hfy2 h99 h98 hval2 (by rw [hres2]; exact hr)
  refine ⟨_, _, _, _, t1, t2, hclose1, rfl, rfl, ?_, hclose2, rfl, ?_,
    ht1touch, ?_, ?_, ?_⟩
  · dsimp only
    rw [hfy2]
    rfl
  · dsimp only
    rw [List.append_assoc]
    rfl
  · intro l hl
    rcases hlines2 with h | h <;> rw [h] at hl <;>
      rcases List.mem_cons.mp hl with rfl | hl2
    · exact Or.inl rfl
    · rcases List.mem_singleton.mp hl2 with rfl
      exact Or.inr rfl
    · exact Or.inr rfl
    · rcases List.mem_singleton.mp hl2 with rfl
      exact Or.inl rfl
  · rcases hlines1 with h | h <;> rw [h] <;> simp [sumDebits]
  · rcases hlines2 with h | h <;> rw [h] <;> simp [sumDebits] <;>
      exact congrArg abs hres2

def c10Store : Store :=
  { accounts := [{ id := 1, companyId := 1, number := "1930"
                   openingBalance := 10000 },
                 { id := 2, companyId := 1, number := "3010"
                   openingBalance := -10000 },
                 { id := 3, companyId := 1, number := "2099"
                   openingBalance := 0 },
                 { id := 4, companyId := 1, number := "2098"
                   openingBalance := 0 }]
    fiscalYears := [{ id := 1, companyId := 1, startDate := 0, endDate := 100
                      isClosed := false }]
    transactions := []
    nextTransactionId := 0 }

theorem c10_close_year_double_disposition_witness :
    ∃ (s2 s4 : Store) (res1 res2 : CloseYearResult) (t1 t2 : Transaction),
      close_year c10Store 1 1 true = .ok (s2, res1) ∧
      res1.dispositionCreated = true ∧
      s2.transactions = c10Store.transactions ++ [t1] ∧
      ((s2.fiscalYears.find? (fun x => x.id == 1)).map
        (fun x => x.isClosed)) = some true ∧
      close_year s2 1 1 true = .ok (s4, res2) ∧
      res2.dispositionCreated = true ∧
      s4.transactions = c10Store.transactions ++ [t1, t2] ∧
      (∀ l ∈ t1.lines, l.accountId = 3 ∨ l.accountId = 4) ∧
      (∀ l ∈ t2.lines, l.accountId = 3 ∨ l.accountId = 4) ∧
      sumDebits t1.lines = |calculate_period_result c10Store 1 0 100| ∧
      sumDebits t2.lines = |calculate_period_result c10Store 1 0 100| :=
  c10_close_year_double_disposition c10Store 1 1
    { id := 1, companyId := 1, startDate := 0, endDate := 100
      isClosed := false }
    { id := 3, companyId := 1, number := "2099", openingBalance := 0 }
    { id := 4, companyId := 1, number := "2098", openingBalance := 0 }
    (by decide) (by decide) (by decide) (by decide) (by decide) (by decide)

end Bokforing
